import Mathlib

/-!
# MinimalClient.cpp — a shallow embedding

`Config/NatNetSDK/Samples/MinimalClient/MinimalClient.cpp` is embedded as pure functions:

* `printf` output is a list of strings, one per `printf` call, in call order;
* a function that dereferences a pointer or indexes an array returns `Option`: `none` stands for
  undefined behaviour (null payload, payload of another kind, index past the end of the array);
* the NatNet backend is a record of state-passing functions over an arbitrary state type;
* `main` returns the way it ends together with the trace of calls and prints it made.

Only the fields the program reads are kept in the NatNet structures.
-/

namespace MinimalClient

/-! ## `printf` conversions -/

/-- The `%d` conversion: decimal digits, a leading `-` for a negative value. -/
def fmt_d (n : Int) : String := toString n

/-- A C floating-point value as `printf` receives it (a `float` argument is promoted to `double`):
the finite value `(-1)^negative * mantissa * 2^exponent`, an infinity, or a NaN. -/
inductive CFloat where
  | finite (negative : Bool) (mantissa : Nat) (exponent : Int)
  | infinite (negative : Bool)
  | nan (negative : Bool)

/-- The value `+0.0`. -/
def CFloat.zero : CFloat := CFloat.finite false 0 0

/-- Whether the value is finite. -/
def CFloat.isFinite : CFloat → Bool
  | CFloat.finite _ _ _ => true
  | _ => false

/-- The quotient `a / d` rounded to the nearest integer, ties to even. -/
def roundHalfEven (a d : Nat) : Nat :=
  let q := a / d
  let r := a % d
  if 2 * r < d then q
  else if d < 2 * r then q + 1
  else if q % 2 = 0 then q else q + 1

/-- The magnitude `mantissa * 2^exponent * 10^prec` rounded to an integer. -/
def scaledMagnitude (prec : Nat) (mantissa : Nat) : Int → Nat
  | Int.ofNat k => mantissa * 2 ^ k * 10 ^ prec
  | Int.negSucc k => roundHalfEven (mantissa * 10 ^ prec) (2 ^ (k + 1))

/-- The last `p` decimal digits of `r`, zero-filled on the left. -/
def fracDigits : Nat → Nat → List Char
  | 0, _ => []
  | p + 1, r => fracDigits p (r / 10) ++ [Nat.digitChar (r % 10)]

/-- The sign that `printf` writes in front of a value. -/
def signText (negative : Bool) : String := if negative then "-" else ""

/-- The `%.Pf` conversion (precision `prec`) without field width. A non-finite value is written as the C
standard prescribes, `[-]inf` or `[-]nan`. -/
def fmtFixed (prec : Nat) : CFloat → String
  | CFloat.finite neg m e =>
    let n := scaledMagnitude prec m e
    signText neg ++ toString (n / 10 ^ prec) ++
      (if prec = 0 then "" else "." ++ String.mk (fracDigits prec (n % 10 ^ prec)))
  | CFloat.infinite neg => signText neg ++ "inf"
  | CFloat.nan neg => signText neg ++ "nan"

/-- Right-justification in a field of at least `width` characters. -/
def padLeft (width : Nat) (s : String) : String :=
  String.mk (List.replicate (width - s.length) ' ') ++ s

/-- The `%W.Pf` conversion with field width `width` and precision `prec`. -/
def fmt_f (width prec : Nat) (x : CFloat) : String := padLeft width (fmtFixed prec x)

/-! ## Loops -/

/-- The loop `for (int i = 0; i < k; i++) body(i)`: the outputs of the iterations in order;
an iteration that fails makes the loop fail. -/
def forUpTo : Nat → (Nat → Option (List String)) → Option (List String)
  | 0, _ => some []
  | k + 1, body =>
    match forUpTo k body with
    | none => none
    | some done =>
      match body k with
      | none => none
      | some out => some (done ++ out)

/-- The loop `for (int i = 0; i < n; i++) body(i)` for a C `int` bound `n`. -/
def forInt (n : Int) (body : Nat → Option (List String)) : Option (List String) :=
  forUpTo n.toNat body

/-! ## Data descriptions (NatNetTypes.h) -/

/-- The C type `MarkerData`, `float[3]`. -/
abbrev MarkerData := Fin 3 → CFloat

/-- The C struct `sMarkerSetDescription`. -/
structure sMarkerSetDescription where
  szName : String
  nMarkers : Int
  szMarkerNames : List String

/-- The C struct `sRigidBodyDescription`; a `none` array is a null pointer. -/
structure sRigidBodyDescription where
  szName : String
  ID : Int
  parentID : Int
  offsetx : CFloat
  offsety : CFloat
  offsetz : CFloat
  nMarkers : Int
  MarkerPositions : Option (List MarkerData)
  MarkerRequiredLabels : Option (List Int)

/-- The C struct `sSkeletonDescription`. -/
structure sSkeletonDescription where
  szName : String
  skeletonID : Int
  nRigidBodies : Int
  RigidBodies : List sRigidBodyDescription

/-- The C struct `sMarkerDescription`. -/
structure sMarkerDescription where
  szName : String
  ID : Int

/-- The C struct `sAssetDescription`. -/
structure sAssetDescription where
  szName : String
  AssetID : Int
  nRigidBodies : Int
  RigidBodies : List sRigidBodyDescription
  nMarkers : Int
  Markers : List sMarkerDescription

/-- The C struct `sForcePlateDescription`. -/
structure sForcePlateDescription where
  ID : Int
  strSerialNo : String
  fWidth : CFloat
  fLength : CFloat
  fOriginX : CFloat
  fOriginY : CFloat
  fOriginZ : CFloat
  fCorners : Fin 4 → Fin 3 → CFloat
  iPlateType : Int
  iChannelDataType : Int
  nChannels : Int
  szChannelNames : List String

/-- The C struct `sDeviceDescription`. -/
structure sDeviceDescription where
  strName : String
  strSerialNo : String
  ID : Int
  nChannels : Int
  szChannelNames : List String

/-- The C struct `sCameraDescription`. -/
structure sCameraDescription where
  strName : String
  x : CFloat
  y : CFloat
  z : CFloat
  qx : CFloat
  qy : CFloat
  qz : CFloat
  qw : CFloat

/-- The union `sDataDescription::Data` of pointers to the seven description structs; `other` is
a null pointer or a payload of none of the seven kinds. -/
inductive DescriptionData where
  | MarkerSetDescription (p : sMarkerSetDescription)
  | RigidBodyDescription (p : sRigidBodyDescription)
  | SkeletonDescription (p : sSkeletonDescription)
  | AssetDescription (p : sAssetDescription)
  | ForcePlateDescription (p : sForcePlateDescription)
  | DeviceDescription (p : sDeviceDescription)
  | CameraDescription (p : sCameraDescription)
  | other

/-- The C struct `sDataDescription`: an `int` type tag and the payload. -/
structure sDataDescription where
  type : Int
  Data : DescriptionData

/-- The C struct `sDataDescriptions`. -/
structure sDataDescriptions where
  nDataDescriptions : Int
  arrDataDescriptions : List sDataDescription

/-- The values of the enumerators of `enum DataDescriptors`. NatNetTypes.h is not among the
sources, so the seven values are a parameter of the embedding. -/
structure DataDescriptors where
  Descriptor_MarkerSet : Int
  Descriptor_RigidBody : Int
  Descriptor_Skeleton : Int
  Descriptor_ForcePlate : Int
  Descriptor_Device : Int
  Descriptor_Camera : Int
  Descriptor_Asset : Int

/-- The seven tags as a list, in the order of the `if` chain of `PrintDataDescriptions`. -/
def DataDescriptors.all (tags : DataDescriptors) : List Int :=
  [tags.Descriptor_MarkerSet, tags.Descriptor_RigidBody, tags.Descriptor_Skeleton,
   tags.Descriptor_Asset, tags.Descriptor_ForcePlate, tags.Descriptor_Device,
   tags.Descriptor_Camera]

/-- The enumerators have pairwise different values. -/
def DataDescriptors.Distinct (tags : DataDescriptors) : Prop := tags.all.Nodup

/-- The enumerators numbered from 0 in the order marker set, rigid body, skeleton, force plate,
device, camera, asset: the instance of the parameter that the examples use. -/
def natNetDescriptors : DataDescriptors :=
  { Descriptor_MarkerSet := 0, Descriptor_RigidBody := 1, Descriptor_Skeleton := 2,
    Descriptor_ForcePlate := 3, Descriptor_Device := 4, Descriptor_Camera := 5,
    Descriptor_Asset := 6 }

/-! ## `PrintDataDescriptions` -/

/-- Reading the union member `Data.MarkerSetDescription`. -/
def DescriptionData.asMarkerSet : DescriptionData → Option sMarkerSetDescription
  | DescriptionData.MarkerSetDescription p => some p
  | _ => none

/-- Reading the union member `Data.RigidBodyDescription`. -/
def DescriptionData.asRigidBody : DescriptionData → Option sRigidBodyDescription
  | DescriptionData.RigidBodyDescription p => some p
  | _ => none

/-- Reading the union member `Data.SkeletonDescription`. -/
def DescriptionData.asSkeleton : DescriptionData → Option sSkeletonDescription
  | DescriptionData.SkeletonDescription p => some p
  | _ => none

/-- Reading the union member `Data.AssetDescription`. -/
def DescriptionData.asAsset : DescriptionData → Option sAssetDescription
  | DescriptionData.AssetDescription p => some p
  | _ => none

/-- Reading the union member `Data.ForcePlateDescription`. -/
def DescriptionData.asForcePlate : DescriptionData → Option sForcePlateDescription
  | DescriptionData.ForcePlateDescription p => some p
  | _ => none

/-- Reading the union member `Data.DeviceDescription`. -/
def DescriptionData.asDevice : DescriptionData → Option sDeviceDescription
  | DescriptionData.DeviceDescription p => some p
  | _ => none

/-- Reading the union member `Data.CameraDescription`. -/
def DescriptionData.asCamera : DescriptionData → Option sCameraDescription
  | DescriptionData.CameraDescription p => some p
  | _ => none

/-- The marker-set branch, lines 164-168. -/
def printMarkerSet (pMS : sMarkerSetDescription) : Option (List String) := do
  let names ← forInt pMS.nMarkers (fun i => do
    let name ← pMS.szMarkerNames[i]?
    pure [name ++ "\n"])
  pure (["标记集名称 : " ++ pMS.szName ++ "\n"] ++ names)

/-- The four lines printed for a rigid body description; `indent` is the text in front of each
line (empty at lines 175-178, two blanks at lines 207-210 and 225-228). -/
def rigidBodyLines (indent : String) (pRB : sRigidBodyDescription) : List String :=
  [indent ++ "刚体名称 : " ++ pRB.szName ++ "\n",
   indent ++ "刚体 ID : " ++ fmt_d pRB.ID ++ "\n",
   indent ++ "刚体父级 ID : " ++ fmt_d pRB.parentID ++ "\n",
   indent ++ "父级偏移 : " ++ fmt_f 3 2 pRB.offsetx ++ "," ++ fmt_f 3 2 pRB.offsety ++ "," ++
     fmt_f 3 2 pRB.offsetz ++ "\n"]

/-- The body of the marker loop of the rigid-body branch, lines 184-193. -/
def rigidBodyMarkerLines (positions : List MarkerData) (labels : List Int) (markerIdx : Nat) :
    Option (List String) := do
  let markerPosition ← positions[markerIdx]?
  let markerRequiredLabel ← labels[markerIdx]?
  pure (["\t标记 #" ++ fmt_d markerIdx ++ ":\n",
         "\t\t位置: " ++ fmt_f 0 2 (markerPosition 0) ++ ", " ++ fmt_f 0 2 (markerPosition 1) ++
           ", " ++ fmt_f 0 2 (markerPosition 2) ++ "\n"] ++
        (if markerRequiredLabel != 0 then
          ["\t\t需要的活动标签: " ++ fmt_d markerRequiredLabel ++ "\n"]
         else []))

/-- The rigid-body branch, lines 173-195. -/
def printRigidBody (pRB : sRigidBodyDescription) : Option (List String) := do
  let markers ←
    match pRB.MarkerPositions, pRB.MarkerRequiredLabels with
    | some positions, some labels => forInt pRB.nMarkers (rigidBodyMarkerLines positions labels)
    | _, _ => some []
  pure (rigidBodyLines "" pRB ++ markers)

/-- The skeleton branch, lines 199-211. -/
def printSkeleton (pSK : sSkeletonDescription) : Option (List String) := do
  let bones ← forInt pSK.nRigidBodies (fun j => do
    let pRB ← pSK.RigidBodies[j]?
    pure (rigidBodyLines "  " pRB))
  pure (["骨骼名称 : " ++ pSK.szName ++ "\n",
         "骨骼 ID : " ++ fmt_d pSK.skeletonID ++ "\n",
         "刚体（骨骼）数量 : " ++ fmt_d pSK.nRigidBodies ++ "\n"] ++ bones)

/-- The bit pattern of a C `int`, 32 bits in two's complement. -/
def bits32 (a : Int) : Nat := (a % 2 ^ 32).toNat

/-- Modelled from the spec: `NatNet_DecodeID` is declared in NatNetCAPI.h and implemented in the
NatNet library, neither of which is among the sources. The spec and the comment at lines 345-347
give the split: the high part is the upper 16 bits of the 32-bit id, the low part is the lower
16 bits. The result is the pair (high part, low part). -/
def NatNet_DecodeID (compositeId : Int) : Int × Int :=
  (((bits32 compositeId / 2 ^ 16 : Nat) : Int), ((bits32 compositeId % 2 ^ 16 : Nat) : Int))

/-- The value of the C `int` with the given 32-bit pattern. -/
def ofBits32 (n : Nat) : Int :=
  if n % 2 ^ 32 < 2 ^ 31 then ((n % 2 ^ 32 : Nat) : Int) else ((n % 2 ^ 32 : Nat) : Int) - 2 ^ 32

/-- Modelled from the spec: the encoding that `NatNet_DecodeID` reverses is performed by the
server and is not among the sources. It packs `high` into the upper 16 bits and `low` into the
lower 16 bits of a 32-bit integer. -/
def encodeID (high low : Nat) : Int := ofBits32 (high * 2 ^ 16 + low)

/-- The asset branch, lines 215-240. -/
def printAsset (pAsset : sAssetDescription) : Option (List String) := do
  let bones ← forInt pAsset.nRigidBodies (fun j => do
    let pRB ← pAsset.RigidBodies[j]?
    pure (rigidBodyLines "  " pRB))
  let markers ← forInt pAsset.nMarkers (fun j => do
    let marker ← pAsset.Markers[j]?
    let (_, markerID) := NatNet_DecodeID marker.ID
    pure ["  标记名称 : " ++ marker.szName ++ "\n",
          "  标记 ID   : " ++ fmt_d markerID ++ "\n"])
  pure (["训练标记集名称 : " ++ pAsset.szName ++ "\n",
         "资产 ID : " ++ fmt_d pAsset.AssetID ++ "\n",
         "训练标记集刚体（骨骼）数量 : " ++ fmt_d pAsset.nRigidBodies ++ "\n"] ++ bones ++
        ["训练标记集标记数量 : " ++ fmt_d pAsset.nMarkers ++ "\n"] ++ markers)

/-- The lines `\t通道 %d : %s\n` of the channel loops, lines 256-257 and 267-268. -/
def channelNameLines (nChannels : Int) (szChannelNames : List String) : Option (List String) :=
  forInt nChannels (fun iChannel => do
    let name ← szChannelNames[iChannel]?
    pure ["\t通道 " ++ fmt_d iChannel ++ " : " ++ name ++ "\n"])

/-- The force-plate branch, lines 245-257. -/
def printForcePlate (pFP : sForcePlateDescription) : Option (List String) := do
  let corners ← forUpTo 4 (fun iCorner =>
    some ["力板角 " ++ fmt_d iCorner ++ " : (" ++ fmt_f 3 4 (pFP.fCorners (Fin.ofNat iCorner) 0) ++
      ", " ++ fmt_f 3 4 (pFP.fCorners (Fin.ofNat iCorner) 1) ++ ", " ++
      fmt_f 3 4 (pFP.fCorners (Fin.ofNat iCorner) 2) ++ ")\n"])
  let channels ← channelNameLines pFP.nChannels pFP.szChannelNames
  pure (["力板 ID : " ++ fmt_d pFP.ID ++ "\n",
         "力板序列号 : " ++ pFP.strSerialNo ++ "\n",
         "力板宽度 : " ++ fmt_f 3 2 pFP.fWidth ++ "\n",
         "力板长度 : " ++ fmt_f 3 2 pFP.fLength ++ "\n",
         "力板电气中心偏移 (" ++ fmt_f 3 3 pFP.fOriginX ++ ", " ++ fmt_f 3 3 pFP.fOriginY ++ ", " ++
           fmt_f 3 3 pFP.fOriginZ ++ ")\n"] ++ corners ++
        ["力板类型 : " ++ fmt_d pFP.iPlateType ++ "\n",
         "力板数据类型 : " ++ fmt_d pFP.iChannelDataType ++ "\n",
         "力板通道数量 : " ++ fmt_d pFP.nChannels ++ "\n"] ++ channels)

/-- The device branch, lines 262-268. -/
def printDevice (pDevice : sDeviceDescription) : Option (List String) := do
  let channels ← channelNameLines pDevice.nChannels pDevice.szChannelNames
  pure (["设备名称 : " ++ pDevice.strName ++ "\n",
         "设备序列号 : " ++ pDevice.strSerialNo ++ "\n",
         "设备 ID : " ++ fmt_d pDevice.ID ++ "\n",
         "设备通道数量 : " ++ fmt_d pDevice.nChannels ++ "\n"] ++ channels)

/-- The camera branch, lines 273-276. -/
def printCamera (pCamera : sCameraDescription) : List String :=
  ["相机名称 : " ++ pCamera.strName ++ "\n",
   "相机位置 (" ++ fmt_f 3 2 pCamera.x ++ ", " ++ fmt_f 3 2 pCamera.y ++ ", " ++
     fmt_f 3 2 pCamera.z ++ ")\n",
   "相机方向 (" ++ fmt_f 3 2 pCamera.qx ++ ", " ++ fmt_f 3 2 pCamera.qy ++ ", " ++
     fmt_f 3 2 pCamera.qz ++ ", " ++ fmt_f 3 2 pCamera.qw ++ ")\n"]

/-- The line of the unknown-type branch, line 281. -/
def unknownTypeLine : String := "未知数据类型。\n"

/-- The `if` chain on the type tag, lines 162-282. -/
def printDescriptionBody (tags : DataDescriptors) (d : sDataDescription) : Option (List String) :=
  if d.type = tags.Descriptor_MarkerSet then d.Data.asMarkerSet.bind printMarkerSet
  else if d.type = tags.Descriptor_RigidBody then d.Data.asRigidBody.bind printRigidBody
  else if d.type = tags.Descriptor_Skeleton then d.Data.asSkeleton.bind printSkeleton
  else if d.type = tags.Descriptor_Asset then d.Data.asAsset.bind printAsset
  else if d.type = tags.Descriptor_ForcePlate then d.Data.asForcePlate.bind printForcePlate
  else if d.type = tags.Descriptor_Device then d.Data.asDevice.bind printDevice
  else if d.type = tags.Descriptor_Camera then d.Data.asCamera.map printCamera
  else some [unknownTypeLine]

/-- The separator line, line 160. -/
def descriptionSeparator : String := "---------------------------------\n"

/-- The header line of a description, line 161. -/
def descriptionHeader (i : Nat) (type : Int) : String :=
  "数据描述 # " ++ fmt_d i ++ " (类型=" ++ fmt_d type ++ ")\n"

/-- One iteration of the loop of `PrintDataDescriptions`, lines 160-282. -/
def printDescription (tags : DataDescriptors) (arr : List sDataDescription) (i : Nat) :
    Option (List String) := do
  let d ← arr[i]?
  let body ← printDescriptionBody tags d
  pure ([descriptionSeparator, descriptionHeader i d.type] ++ body)

/-- The first line of `PrintDataDescriptions`, line 157. -/
def retrievedLine (n : Int) : String := "检索到 " ++ fmt_d n ++ " 个数据描述:\n"

/-- The function `PrintDataDescriptions`, lines 155-284. -/
def PrintDataDescriptions (tags : DataDescriptors) (pDataDefs : sDataDescriptions) :
    Option (List String) := do
  let blocks ← forInt pDataDefs.nDataDescriptions (printDescription tags pDataDefs.arrDataDescriptions)
  pure ([retrievedLine pDataDefs.nDataDescriptions] ++ blocks)

/-! ## Frames of mocap data (NatNetTypes.h) -/

/-- The C struct `sRigidBodyData`; `params` is an `int16_t`. -/
structure sRigidBodyData where
  ID : Int
  x : CFloat
  y : CFloat
  z : CFloat
  qx : CFloat
  qy : CFloat
  qz : CFloat
  qw : CFloat
  MeanError : CFloat
  params : Int

/-- The C struct `sSkeletonData`. -/
structure sSkeletonData where
  skeletonID : Int
  nRigidBodies : Int
  RigidBodyData : List sRigidBodyData

/-- The C struct `sMarker`; `params` is an `int16_t`. -/
structure sMarker where
  ID : Int
  x : CFloat
  y : CFloat
  z : CFloat
  size : CFloat
  params : Int
  residual : CFloat

/-- The C struct `sAssetData`. -/
structure sAssetData where
  assetID : Int
  nRigidBodies : Int
  RigidBodyData : List sRigidBodyData
  nMarkers : Int
  MarkerData : List sMarker

/-- The C struct `sAnalogChannelData`. -/
structure sAnalogChannelData where
  nFrames : Int
  Values : List CFloat

/-- The C structs `sForcePlateData` and `sDeviceData`, which have the same fields. -/
structure sAnalogDeviceData where
  ID : Int
  nChannels : Int
  ChannelData : List sAnalogChannelData

/-- The C struct `sFrameOfMocapData`. -/
structure sFrameOfMocapData where
  iFrame : Int
  fTimestamp : CFloat
  nRigidBodies : Int
  RigidBodies : List sRigidBodyData
  nSkeletons : Int
  Skeletons : List sSkeletonData
  nAssets : Int
  Assets : List sAssetData
  nLabeledMarkers : Int
  LabeledMarkers : List sMarker
  nForcePlates : Int
  ForcePlates : List sAnalogDeviceData
  nDevices : Int
  Devices : List sAnalogDeviceData

/-! ## `PrintData` -/

/-- The C expression `a & b` on `int` operands. -/
def bitAnd (a b : Int) : Int := ofBits32 (bits32 a &&& bits32 b)

/-- The separator line in front of every section of a frame. -/
def sectionSeparator : String := "------------------------\n"

/-- The seven tab-separated `%3.2f` fields of a pose. -/
def poseFields (rb : sRigidBodyData) : String :=
  "\t" ++ fmt_f 3 2 rb.x ++ "\t" ++ fmt_f 3 2 rb.y ++ "\t" ++ fmt_f 3 2 rb.z ++ "\t" ++
    fmt_f 3 2 rb.qx ++ "\t" ++ fmt_f 3 2 rb.qy ++ "\t" ++ fmt_f 3 2 rb.qz ++ "\t" ++
    fmt_f 3 2 rb.qw ++ "\n"

/-- The body of the rigid-body loop, lines 303-315. -/
def rigidBodyEntry (rb : sRigidBodyData) : List String :=
  let bTrackingValid : Bool := bitAnd rb.params 0x01 != 0
  let streamingID := rb.ID
  ["[ID=" ++ fmt_d streamingID ++ "  Error=" ++ fmt_f 3 4 rb.MeanError ++ "  Tracked=" ++
     fmt_d (if bTrackingValid then 1 else 0) ++ "]\n",
   "\tx\ty\tz\tqx\tqy\tqz\tqw\n",
   poseFields rb]

/-- The body of the skeleton loop, lines 323-330. -/
def skeletonEntry (skData : sSkeletonData) : Option (List String) := do
  let bones ← forInt skData.nRigidBodies (fun j => do
    let rbData ← skData.RigidBodyData[j]?
    pure ["Bone " ++ fmt_d rbData.ID ++ poseFields rbData])
  pure (["Skeleton [ID=" ++ fmt_d skData.skeletonID ++ "  Bone count=" ++
          fmt_d skData.nRigidBodies ++ "]\n"] ++ bones)

/-- The constant `1000.0f`. -/
def thousand : CFloat := CFloat.finite false 1000 0

/-- The body of the asset loop, lines 338-363. The product `marker.residual * 1000.0f` is
computed by `mulf`, the single-precision multiplication of the platform. -/
def assetEntry (mulf : CFloat → CFloat → CFloat) (asset : sAssetData) : Option (List String) := do
  let bones ← forInt asset.nRigidBodies (fun j => do
    let rbData ← asset.RigidBodyData[j]?
    let (_, rigidBodyID) := NatNet_DecodeID rbData.ID
    pure ["Bone " ++ fmt_d rigidBodyID ++ poseFields rbData])
  let markers ← forInt asset.nMarkers (fun j => do
    let marker ← asset.MarkerData[j]?
    let (assetID, markerID) := NatNet_DecodeID marker.ID
    pure ["Marker [AssetID=" ++ fmt_d assetID ++ ", MarkerID=" ++ fmt_d markerID ++ "] [size=" ++
      fmt_f 3 2 marker.size ++ "] [pos=" ++ fmt_f 3 2 marker.x ++ "," ++ fmt_f 3 2 marker.y ++
      "," ++ fmt_f 3 2 marker.z ++ "] [residual(mm)=" ++
      fmt_f 0 4 (mulf marker.residual thousand) ++ "]\n"])
  pure (["Trained Markerset [ID=" ++ fmt_d asset.assetID ++ "  Bone count=" ++
          fmt_d asset.nRigidBodies ++ "   Marker count=" ++ fmt_d asset.nMarkers ++ "]\n"] ++
        bones ++ markers)

/-- The text copied into `szMarkerType`, lines 373-384. -/
def szMarkerType (params : Int) : String :=
  let bUnlabeled : Bool := bitAnd params 0x10 != 0
  let bActiveMarker : Bool := bitAnd params 0x20 != 0
  if bActiveMarker then "Active"
  else if bUnlabeled then "Unlabeled"
  else "Labeled"

/-- What follows the kind word on the line of a labeled marker, lines 385-386. -/
def labeledMarkerFields (marker : sMarker) : String :=
  let (modelID, markerID) := NatNet_DecodeID marker.ID
  " Marker [ModelID=" ++ fmt_d modelID ++ ", MarkerID=" ++ fmt_d markerID ++ "] [size=" ++
    fmt_f 3 2 marker.size ++ "] [pos=" ++ fmt_f 3 2 marker.x ++ "," ++ fmt_f 3 2 marker.y ++
    "," ++ fmt_f 3 2 marker.z ++ "]\n"

/-- The line printed by the body of the labeled-marker loop, lines 373-386. -/
def labeledMarkerEntry (marker : sMarker) : String :=
  szMarkerType marker.params ++ labeledMarkerFields marker

/-- The body of the channel loops, lines 397-404 and 416-423. -/
def channelEntry (channels : List sAnalogChannelData) (iChannel : Nat) :
    Option (List String) := do
  let channel ← channels[iChannel]?
  let samples ← forInt channel.nFrames (fun iSample => do
    let value ← channel.Values[iSample]?
    pure [fmt_f 3 2 value ++ "\t"])
  pure (["\tChannel " ++ fmt_d iChannel ++ ":\t"] ++
        (if channel.nFrames = 0 then ["\tEmpty Frame\n"] else []) ++ samples ++ ["\n"])

/-- The body of the force-plate loop (`label` is `Force Plate`, lines 394-405) and of the device
loop (`label` is `Device`, lines 413-424). -/
def analogEntry (label : String) (d : sAnalogDeviceData) : Option (List String) := do
  let channels ← forInt d.nChannels (channelEntry d.ChannelData)
  pure ([label ++ " " ++ fmt_d d.ID ++ "\n"] ++ channels)

/-- The header line of the rigid-body section, line 300. -/
def rigidBodiesHeader (n : Int) : String := "Rigid Bodies [ Count = " ++ fmt_d n ++ " ]\n"

/-- The header line of the skeleton section, line 320. -/
def skeletonsHeader (n : Int) : String := "Skeletons [ Count = " ++ fmt_d n ++ " ]\n"

/-- The header line of the asset section, line 335. -/
def assetsHeader (n : Int) : String := "Assets [Count=" ++ fmt_d n ++ "]\n"

/-- The header line of the labeled-marker section, line 370. -/
def markersHeader (n : Int) : String := "Markers [ Count = " ++ fmt_d n ++ " ]\n"

/-- The header line of the force-plate section, line 391. -/
def forcePlatesHeader (n : Int) : String := "Force Plates [ Count = " ++ fmt_d n ++ " ]\n"

/-- The header line of the device section, line 410. -/
def devicesHeader (n : Int) : String := "Devices [ Count = " ++ fmt_d n ++ " ]\n"

/-- The three lines that open the output of a frame, lines 294-296. -/
def frameOpening (data : sFrameOfMocapData) : List String :=
  ["\n=====================  New Packet Arrived  =============================\n",
   "FrameID : " ++ fmt_d data.iFrame ++ "\n",
   "Timestamp : " ++ fmt_f 3 2 data.fTimestamp ++ "\n"]

/-- The function `PrintData`, lines 292-426. Its second argument `pClient` is not used by the
body and is left out. -/
def PrintData (mulf : CFloat → CFloat → CFloat) (data : sFrameOfMocapData) :
    Option (List String) := do
  let rigidBodies ← forInt data.nRigidBodies (fun i => do
    let rb ← data.RigidBodies[i]?
    pure (rigidBodyEntry rb))
  let skeletons ← forInt data.nSkeletons (fun i => do
    let skData ← data.Skeletons[i]?
    skeletonEntry skData)
  let assets ← forInt data.nAssets (fun i => do
    let asset ← data.Assets[i]?
    assetEntry mulf asset)
  let markers ← forInt data.nLabeledMarkers (fun i => do
    let marker ← data.LabeledMarkers[i]?
    pure [labeledMarkerEntry marker])
  let forcePlates ← forInt data.nForcePlates (fun iPlate => do
    let plate ← data.ForcePlates[iPlate]?
    analogEntry "Force Plate" plate)
  let devices ← forInt data.nDevices (fun iDevice => do
    let device ← data.Devices[iDevice]?
    analogEntry "Device" device)
  pure (frameOpening data ++
        [sectionSeparator, rigidBodiesHeader data.nRigidBodies] ++ rigidBodies ++
        [sectionSeparator, skeletonsHeader data.nSkeletons] ++ skeletons ++
        [sectionSeparator, assetsHeader data.nAssets] ++ assets ++
        [sectionSeparator, markersHeader data.nLabeledMarkers] ++ markers ++
        [sectionSeparator, forcePlatesHeader data.nForcePlates] ++ forcePlates ++
        [sectionSeparator, devicesHeader data.nDevices] ++ devices)

/-! ## `main` -/

/-- Modelled from the spec: `enum ConnectionType` is declared in NatNetTypes.h, which is not among
the sources; the spec gives the two transport modes, Multicast and Unicast. -/
inductive ConnectionType where
  | ConnectionType_Multicast
  | ConnectionType_Unicast
deriving DecidableEq

/-- The C struct `sNatNetClientConnectParams`, with the three fields `main` assigns. -/
structure sNatNetClientConnectParams where
  connectionType : ConnectionType
  localAddress : String
  serverAddress : String
deriving DecidableEq

/-- The C struct `sServerDescription`. -/
structure sServerDescription where
  HostPresent : Bool
  szHostApp : String
  HostAppVersion : Fin 4 → Nat

/-- Modelled from the spec: `ErrorCode_OK` is an enumerator of `enum ErrorCode` in NatNetTypes.h,
which is not among the sources. `main` returns it at line 130 for the graceful shutdown, whose
exit code the spec gives as 0. -/
def ErrorCode_OK : Int := 0

/-- The NatNet client object as `main` uses it. Each call takes the state of the backend and
returns its result with the next state. `Connect` returns `none` when the call throws, which is
the case the `catch (...)` of lines 74-78 handles; the other calls return an `ErrorCode` as
declared. `GetServerDescription` returns the description it leaves in the zeroed struct, and
`GetDataDescriptionList` the catalog it leaves in `g_pDataDefs`, `none` for a null pointer. -/
structure Backend (σ : Type) where
  SetFrameReceivedCallback : σ → Int × σ
  Connect : sNatNetClientConnectParams → σ → Option Int × σ
  GetServerDescription : σ → (Int × sServerDescription) × σ
  GetDataDescriptionList : σ → (Int × Option sDataDescriptions) × σ

/-- What the main thread does, in order: the calls on the client object with what they
returned (for `Connect`, `none` when it threw), the call of `PrintDataDescriptions` with its
argument, and the calls of `printf` with the text written. -/
inductive Event where
  | SetFrameReceivedCallback (ret : Int)
  | Connect (params : sNatNetClientConnectParams) (result : Option Int)
  | GetServerDescription (ret : Int) (description : sServerDescription)
  | GetDataDescriptionList (ret : Int) (pDataDefs : Option sDataDescriptions)
  | PrintDataDescriptions (pDataDefs : sDataDescriptions)
  | printf (text : String)

/-- How `main` ends: it returns a code; it stays in the `while (true)` loop of lines 112-115
for ever; an exception leaves `main` (the first `Connect` is outside the `try`); or
`PrintDataDescriptions` has undefined behaviour on an ill-formed catalog. -/
inductive Outcome where
  | returned (code : Int)
  | listening
  | uncaught
  | undefined
deriving DecidableEq

/-- The `Connect` calls of a trace: the parameters and the result of each, in order. -/
def connectCalls (trace : List Event) : List (sNatNetClientConnectParams × Option Int) :=
  trace.filterMap (fun e =>
    match e with
    | Event.Connect params result => some (params, result)
    | _ => none)

/-- The texts written by `printf` in a trace, in order. -/
def printed (trace : List Event) : List String :=
  trace.filterMap (fun e =>
    match e with
    | Event.printf text => some text
    | _ => none)

/-- The number of `GetDataDescriptionList` calls in a trace. -/
def fetchCalls (trace : List Event) : Nat :=
  trace.countP (fun e =>
    match e with
    | Event.GetDataDescriptionList _ _ => true
    | _ => false)

/-- The message of line 76. -/
def connectFailedLine (ret : Int) : String :=
  "无法连接到服务器。错误代码: " ++ fmt_d ret ++ "。正在退出。\n"

/-- The message of line 88. -/
def serverDescriptionFailedLine (ret : Int) : String :=
  "无法获取服务器描述。错误代码:" ++ fmt_d ret ++ "。正在退出。\n"

/-- The banner of lines 93-94. -/
def connectedLine (d : sServerDescription) : String :=
  "已连接 : " ++ d.szHostApp ++ " (版本 " ++ fmt_d (d.HostAppVersion 0) ++ "." ++
    fmt_d (d.HostAppVersion 1) ++ "." ++ fmt_d (d.HostAppVersion 2) ++ "." ++
    fmt_d (d.HostAppVersion 3) ++ ")\n"

/-- The message of line 101. -/
def assetListFailedLine (ret : Int) : String :=
  "获取资产列表时出错。错误代码:" ++ fmt_d ret ++ " 正在退出。\n"

/-- The line of line 109. -/
def listeningLine : String := "\n客户端已连接并正在监听数据...\n"

/-- The connection parameters of the first `Connect`, lines 57-59. -/
def multicastParams : sNatNetClientConnectParams :=
  { localAddress := "127.0.0.1", serverAddress := "127.0.0.1",
    connectionType := ConnectionType.ConnectionType_Multicast }

/-- The connection parameters after the assignments of lines 68-70. -/
def unicastParams : sNatNetClientConnectParams :=
  { multicastParams with
    localAddress := "127.0.0.1", serverAddress := "127.0.0.1",
    connectionType := ConnectionType.ConnectionType_Unicast }

/-- Lines 97-115 of `main`: the catalog fetch and what follows it. -/
def mainFetch {σ : Type} (tags : DataDescriptors) (b : Backend σ) (s : σ) (trace : List Event) :
    Outcome × List Event :=
  let ((ret, g_pDataDefs), _) := b.GetDataDescriptionList s
  let trace := trace ++ [Event.GetDataDescriptionList ret g_pDataDefs]
  match g_pDataDefs with
  | none => (Outcome.returned 1, trace ++ [Event.printf (assetListFailedLine ret)])
  | some pDataDefs =>
    if ret ≠ ErrorCode_OK then
      (Outcome.returned 1, trace ++ [Event.printf (assetListFailedLine ret)])
    else
      match PrintDataDescriptions tags pDataDefs with
      | none => (Outcome.undefined, trace ++ [Event.PrintDataDescriptions pDataDefs])
      | some out =>
        (Outcome.listening,
          trace ++ [Event.PrintDataDescriptions pDataDefs] ++ out.map Event.printf ++
            [Event.printf listeningLine])

/-- Lines 83-115 of `main`: from the server description on. -/
def mainDescribe {σ : Type} (tags : DataDescriptors) (b : Backend σ) (s : σ)
    (trace : List Event) : Outcome × List Event :=
  let ((ret, g_serverDescription), s) := b.GetServerDescription s
  let trace := trace ++ [Event.GetServerDescription ret g_serverDescription]
  if ret ≠ ErrorCode_OK ∨ g_serverDescription.HostPresent = false then
    (Outcome.returned 1, trace ++ [Event.printf (serverDescriptionFailedLine ret)])
  else
    mainFetch tags b s (trace ++ [Event.printf (connectedLine g_serverDescription)])

/-- The function `main`, lines 46-131, on the backend `b` in the state `s`. The frame callback
runs on a thread of the backend and is not part of this trace. -/
def main {σ : Type} (tags : DataDescriptors) (b : Backend σ) (s : σ) : Outcome × List Event :=
  let (ret, s) := b.SetFrameReceivedCallback s
  let trace := [Event.SetFrameReceivedCallback ret]
  match b.Connect multicastParams s with
  | (none, _) => (Outcome.uncaught, trace ++ [Event.Connect multicastParams none])
  | (some ret, s) =>
    let trace := trace ++ [Event.Connect multicastParams (some ret)]
    if ret ≠ ErrorCode_OK then
      match b.Connect unicastParams s with
      | (none, _) =>
        (Outcome.returned 1,
          trace ++ [Event.Connect unicastParams none, Event.printf (connectFailedLine ret)])
      | (some ret, s) =>
        mainDescribe tags b s (trace ++ [Event.Connect unicastParams (some ret)])
    else mainDescribe tags b s trace

/-! ## Stub backends -/

/-- A backend without state that answers every call the same way: `first` to a Multicast
`Connect`, `second` to a Unicast `Connect`. -/
def stubBackend (first second : Option Int) (description : Int × sServerDescription)
    (catalog : Int × Option sDataDescriptions) : Backend Unit :=
  { SetFrameReceivedCallback := fun s => (ErrorCode_OK, s)
    Connect := fun params s =>
      (if params.connectionType = ConnectionType.ConnectionType_Multicast then first else second, s)
    GetServerDescription := fun s => (description, s)
    GetDataDescriptionList := fun s => (catalog, s) }

/-- A server description with `HostPresent` set. -/
def motiveDescription : sServerDescription :=
  { HostPresent := true, szHostApp := "Motive", HostAppVersion := fun i => i.val + 3 }

/-- A server description with `HostPresent` clear, as `memset` leaves it. -/
def absentDescription : sServerDescription :=
  { HostPresent := false, szHostApp := "", HostAppVersion := fun _ => 0 }

/-- A catalog without descriptions. -/
def emptyCatalog : sDataDescriptions := { nDataDescriptions := 0, arrDataDescriptions := [] }

/-! ## Loop output -/

/-- The output of the first `k` iterations of a loop, an iteration that fails counting for
nothing. It names the output of a loop in the statements about loops. -/
def loopOutput (k : Nat) (body : Nat → Option (List String)) : List String :=
  ((List.range k).map (fun i => (body i).getD [])).flatten

/-! ## Well-formed inputs

A count field does not exceed the length of the array it counts, and the payload of a description
is of the kind its type tag names. These are the conditions under which the loops and the union
reads of the program stay inside the data. -/

/-- The marker names cover `nMarkers`. -/
def sMarkerSetDescription.WellFormed (p : sMarkerSetDescription) : Prop :=
  p.nMarkers.toNat ≤ p.szMarkerNames.length

/-- When both marker arrays are present they cover `nMarkers`. -/
def sRigidBodyDescription.WellFormed (p : sRigidBodyDescription) : Prop :=
  ∀ positions labels, p.MarkerPositions = some positions → p.MarkerRequiredLabels = some labels →
    p.nMarkers.toNat ≤ positions.length ∧ p.nMarkers.toNat ≤ labels.length

/-- The bones cover `nRigidBodies`. -/
def sSkeletonDescription.WellFormed (p : sSkeletonDescription) : Prop :=
  p.nRigidBodies.toNat ≤ p.RigidBodies.length

/-- The bones cover `nRigidBodies` and the markers cover `nMarkers`. -/
def sAssetDescription.WellFormed (p : sAssetDescription) : Prop :=
  p.nRigidBodies.toNat ≤ p.RigidBodies.length ∧ p.nMarkers.toNat ≤ p.Markers.length

/-- The channel names cover `nChannels`. -/
def sForcePlateDescription.WellFormed (p : sForcePlateDescription) : Prop :=
  p.nChannels.toNat ≤ p.szChannelNames.length

/-- The channel names cover `nChannels`. -/
def sDeviceDescription.WellFormed (p : sDeviceDescription) : Prop :=
  p.nChannels.toNat ≤ p.szChannelNames.length

/-- A description whose tag is one of the seven enumerators has a well-formed payload of that
kind; a description with another tag may have any payload. -/
def sDataDescription.WellFormed (tags : DataDescriptors) (d : sDataDescription) : Prop :=
  (d.type = tags.Descriptor_MarkerSet →
    ∃ p, d.Data = DescriptionData.MarkerSetDescription p ∧ p.WellFormed) ∧
  (d.type = tags.Descriptor_RigidBody →
    ∃ p, d.Data = DescriptionData.RigidBodyDescription p ∧ p.WellFormed) ∧
  (d.type = tags.Descriptor_Skeleton →
    ∃ p, d.Data = DescriptionData.SkeletonDescription p ∧ p.WellFormed) ∧
  (d.type = tags.Descriptor_Asset →
    ∃ p, d.Data = DescriptionData.AssetDescription p ∧ p.WellFormed) ∧
  (d.type = tags.Descriptor_ForcePlate →
    ∃ p, d.Data = DescriptionData.ForcePlateDescription p ∧ p.WellFormed) ∧
  (d.type = tags.Descriptor_Device →
    ∃ p, d.Data = DescriptionData.DeviceDescription p ∧ p.WellFormed) ∧
  (d.type = tags.Descriptor_Camera → ∃ p, d.Data = DescriptionData.CameraDescription p)

/-- The array covers `nDataDescriptions` and each of its first `nDataDescriptions` cells is
well-formed. -/
def sDataDescriptions.WellFormed (tags : DataDescriptors) (defs : sDataDescriptions) : Prop :=
  defs.nDataDescriptions.toNat ≤ defs.arrDataDescriptions.length ∧
  ∀ i d, i < defs.nDataDescriptions.toNat → defs.arrDataDescriptions[i]? = some d →
    d.WellFormed tags

/-- The bones cover `nRigidBodies`. -/
def sSkeletonData.WellFormed (sk : sSkeletonData) : Prop :=
  sk.nRigidBodies.toNat ≤ sk.RigidBodyData.length

/-- The bones cover `nRigidBodies` and the markers cover `nMarkers`. -/
def sAssetData.WellFormed (a : sAssetData) : Prop :=
  a.nRigidBodies.toNat ≤ a.RigidBodyData.length ∧ a.nMarkers.toNat ≤ a.MarkerData.length

/-- The samples cover `nFrames`. -/
def sAnalogChannelData.WellFormed (c : sAnalogChannelData) : Prop :=
  c.nFrames.toNat ≤ c.Values.length

/-- The channels cover `nChannels` and each of the first `nChannels` is well-formed. -/
def sAnalogDeviceData.WellFormed (d : sAnalogDeviceData) : Prop :=
  d.nChannels.toNat ≤ d.ChannelData.length ∧
  ∀ i c, i < d.nChannels.toNat → d.ChannelData[i]? = some c → c.WellFormed

/-- Each of the six arrays covers its count, and the counted cells are well-formed. -/
def sFrameOfMocapData.WellFormed (data : sFrameOfMocapData) : Prop :=
  data.nRigidBodies.toNat ≤ data.RigidBodies.length ∧
  data.nSkeletons.toNat ≤ data.Skeletons.length ∧
  (∀ i sk, i < data.nSkeletons.toNat → data.Skeletons[i]? = some sk → sk.WellFormed) ∧
  data.nAssets.toNat ≤ data.Assets.length ∧
  (∀ i a, i < data.nAssets.toNat → data.Assets[i]? = some a → a.WellFormed) ∧
  data.nLabeledMarkers.toNat ≤ data.LabeledMarkers.length ∧
  data.nForcePlates.toNat ≤ data.ForcePlates.length ∧
  (∀ i d, i < data.nForcePlates.toNat → data.ForcePlates[i]? = some d → d.WellFormed) ∧
  data.nDevices.toNat ≤ data.Devices.length ∧
  (∀ i d, i < data.nDevices.toNat → data.Devices[i]? = some d → d.WellFormed)

/-! ## Example inputs and text search -/

/-- The product of two values without rounding, an instance of the multiplication that
`PrintData` takes as a parameter. -/
def CFloat.mulExact : CFloat → CFloat → CFloat
  | CFloat.finite s1 m1 e1, CFloat.finite s2 m2 e2 => CFloat.finite (xor s1 s2) (m1 * m2) (e1 + e2)
  | CFloat.nan s, _ => CFloat.nan s
  | _, CFloat.nan s => CFloat.nan s
  | CFloat.infinite s1, CFloat.finite s2 m _ =>
    if m = 0 then CFloat.nan false else CFloat.infinite (xor s1 s2)
  | CFloat.finite s1 m _, CFloat.infinite s2 =>
    if m = 0 then CFloat.nan false else CFloat.infinite (xor s1 s2)
  | CFloat.infinite s1, CFloat.infinite s2 => CFloat.infinite (xor s1 s2)

/-- The number of positions of `text` at which `pattern` starts. -/
def occurrences (pattern : List Char) : List Char → Nat
  | [] => 0
  | c :: rest =>
    (if pattern.isPrefixOf (c :: rest) then 1 else 0) + occurrences pattern rest

/-- The number of times `pattern` occurs in the concatenation of the `printf` outputs. -/
def countInOutput (pattern : String) (out : List String) : Nat :=
  occurrences pattern.data (String.join out).data

/-- A frame whose six counts are all 0. -/
def zeroFrame : sFrameOfMocapData :=
  { iFrame := 7, fTimestamp := CFloat.zero,
    nRigidBodies := 0, RigidBodies := [], nSkeletons := 0, Skeletons := [],
    nAssets := 0, Assets := [], nLabeledMarkers := 0, LabeledMarkers := [],
    nForcePlates := 0, ForcePlates := [], nDevices := 0, Devices := [] }

/-- A labeled marker at the origin with the given `params`. -/
def markerWith (params : Int) : sMarker :=
  { ID := 196611, x := CFloat.zero, y := CFloat.zero, z := CFloat.zero,
    size := CFloat.finite false 1 (-1), params := params, residual := CFloat.zero }

/-- A frame with three labeled markers, of params 0x30, 0x10 and 0x01. -/
def markerFrame : sFrameOfMocapData :=
  { zeroFrame with
    nLabeledMarkers := 3, LabeledMarkers := [markerWith 0x30, markerWith 0x10, markerWith 0x01] }

/-- The text is a number with exactly two decimals: an optional minus sign, the decimal digits
of a whole part, a point and two digits. -/
def TwoDecimals (s : String) : Prop :=
  ∃ (negative : Bool) (whole : Nat) (d1 d2 : Char),
    d1.isDigit = true ∧ d2.isDigit = true ∧
    s = signText negative ++ toString whole ++ "." ++ String.mk [d1, d2]

/-- A rigid body description with the given offsets and no marker arrays. -/
def bodyWith (szName : String) (ID parentID : Int) (x y z : CFloat) : sRigidBodyDescription :=
  { szName := szName, ID := ID, parentID := parentID, offsetx := x, offsety := y, offsetz := z,
    nMarkers := 0, MarkerPositions := none, MarkerRequiredLabels := none }

/-- The catalog that consists of the one rigid body description `pRB`. -/
def singleRigidBody (tags : DataDescriptors) (pRB : sRigidBodyDescription) : sDataDescriptions :=
  { nDataDescriptions := 1,
    arrDataDescriptions :=
      [{ type := tags.Descriptor_RigidBody, Data := DescriptionData.RigidBodyDescription pRB }] }

/-- The rigid body `Body1` with ID 1, parent ID -1 and offset (0, 0, 0). -/
def body1 : sRigidBodyDescription := bodyWith "Body1" 1 (-1) CFloat.zero CFloat.zero CFloat.zero

/-- A rigid body whose x offset is `+inf`. -/
def bodyInf : sRigidBodyDescription :=
  bodyWith "Body1" 1 (-1) (CFloat.infinite false) CFloat.zero CFloat.zero

/-- A catalog with one description of each of the seven kinds and one of the unknown type 99. -/
def fullCatalog : sDataDescriptions :=
  { nDataDescriptions := 8,
    arrDataDescriptions :=
      [{ type := 0,
         Data := DescriptionData.MarkerSetDescription
           { szName := "all", nMarkers := 2, szMarkerNames := ["m1", "m2"] } },
       { type := 1,
         Data := DescriptionData.RigidBodyDescription
           { szName := "Body1", ID := 1, parentID := -1, offsetx := CFloat.zero,
             offsety := CFloat.zero, offsetz := CFloat.zero, nMarkers := 2,
             MarkerPositions := some [fun _ => CFloat.zero, fun _ => CFloat.finite false 1 0],
             MarkerRequiredLabels := some [0, 5] } },
       { type := 2,
         Data := DescriptionData.SkeletonDescription
           { szName := "sk", skeletonID := 3, nRigidBodies := 1, RigidBodies := [body1] } },
       { type := 3,
         Data := DescriptionData.ForcePlateDescription
           { ID := 7, strSerialNo := "FP1", fWidth := CFloat.finite false 1 (-1),
             fLength := CFloat.finite false 1 0, fOriginX := CFloat.zero,
             fOriginY := CFloat.zero, fOriginZ := CFloat.zero,
             fCorners := fun _ _ => CFloat.zero, iPlateType := 1, iChannelDataType := 0,
             nChannels := 2, szChannelNames := ["Fx", "Fy"] } },
       { type := 4,
         Data := DescriptionData.DeviceDescription
           { strName := "daq", strSerialNo := "D1", ID := 8, nChannels := 1,
             szChannelNames := ["ch"] } },
       { type := 5,
         Data := DescriptionData.CameraDescription
           { strName := "cam", x := CFloat.zero, y := CFloat.zero, z := CFloat.zero,
             qx := CFloat.zero, qy := CFloat.zero, qz := CFloat.zero,
             qw := CFloat.finite false 1 0 } },
       { type := 6,
         Data := DescriptionData.AssetDescription
           { szName := "as", AssetID := 4, nRigidBodies := 1, RigidBodies := [body1],
             nMarkers := 1, Markers := [{ szName := "mk", ID := 196611 }] } },
       { type := 99, Data := DescriptionData.other }] }

/-! # Theorems -/

set_option maxRecDepth 100000

/-! ## `main` -/

/-- The server-description message starts differently from the banner. -/
theorem serverDescriptionFailedLine_ne_connectedLine (ret : Int) (d : sServerDescription) :
    serverDescriptionFailedLine ret ≠ connectedLine d := by
  intro h
  have h2 := congrArg (fun t => t.data.head?) h
  simp [serverDescriptionFailedLine, connectedLine, String.data_append] at h2

/-- C1: on every backend, when the first `Connect` call of `main` (made with Multicast and both
addresses 127.0.0.1, in the state the backend is in after `SetFrameReceivedCallback`) returns a
code other than `ErrorCode_OK`, the run has exactly two `Connect` calls, the second with Unicast
and the same two addresses, with the result the backend gives for it; when the first call
returns `ErrorCode_OK`, the run has exactly that one `Connect` call. -/
theorem main_connect_fallback_once {σ : Type} (tags : DataDescriptors) (b : Backend σ)
    (s s1 s2 : σ) (r0 ret : Int)
    (hset : b.SetFrameReceivedCallback s = (r0, s1))
    (hfirst : b.Connect
      { connectionType := ConnectionType.ConnectionType_Multicast,
        localAddress := "127.0.0.1", serverAddress := "127.0.0.1" } s1 = (some ret, s2)) :
    (ret ≠ ErrorCode_OK →
      connectCalls (main tags b s).2 =
        [({ connectionType := ConnectionType.ConnectionType_Multicast,
            localAddress := "127.0.0.1", serverAddress := "127.0.0.1" }, some ret),
         ({ connectionType := ConnectionType.ConnectionType_Unicast,
            localAddress := "127.0.0.1", serverAddress := "127.0.0.1" },
          (b.Connect
            { connectionType := ConnectionType.ConnectionType_Unicast,
              localAddress := "127.0.0.1", serverAddress := "127.0.0.1" } s2).1)]) ∧
    (ret = ErrorCode_OK →
      connectCalls (main tags b s).2 =
        [({ connectionType := ConnectionType.ConnectionType_Multicast,
            localAddress := "127.0.0.1", serverAddress := "127.0.0.1" }, some ret)]) := by
  have hfirst2 : b.Connect multicastParams s1 = (some ret, s2) := hfirst
  unfold main mainDescribe mainFetch
  simp only [connectCalls, hset, hfirst2]
  constructor
  · intro hne
    rw [if_pos hne]
    repeat' split
    all_goals simp_all [multicastParams, unicastParams]
  · intro he
    rw [if_neg (not_not.mpr he)]
    repeat' split
    all_goals simp_all [multicastParams, unicastParams]

/-- C1 at a backend whose Multicast `Connect` returns 2 and whose Unicast `Connect` returns 0. -/
theorem main_connect_fallback_once_witness :
    (stubBackend (some 2) (some 0) (ErrorCode_OK, motiveDescription)
      (ErrorCode_OK, some emptyCatalog)).SetFrameReceivedCallback () = (0, ()) ∧
    (stubBackend (some 2) (some 0) (ErrorCode_OK, motiveDescription)
      (ErrorCode_OK, some emptyCatalog)).Connect
        { connectionType := ConnectionType.ConnectionType_Multicast,
          localAddress := "127.0.0.1", serverAddress := "127.0.0.1" } () = (some 2, ()) ∧
    connectCalls (main natNetDescriptors
        (stubBackend (some 2) (some 0) (ErrorCode_OK, motiveDescription)
          (ErrorCode_OK, some emptyCatalog)) ()).2 =
      [({ connectionType := ConnectionType.ConnectionType_Multicast,
          localAddress := "127.0.0.1", serverAddress := "127.0.0.1" }, some 2),
       ({ connectionType := ConnectionType.ConnectionType_Unicast,
          localAddress := "127.0.0.1", serverAddress := "127.0.0.1" }, some 0)] :=
  ⟨rfl, rfl,
   (main_connect_fallback_once natNetDescriptors
      (stubBackend (some 2) (some 0) (ErrorCode_OK, motiveDescription)
        (ErrorCode_OK, some emptyCatalog)) () () () 0 2 rfl rfl).1 (by decide)⟩

/-- C2: on the backend whose two `Connect` calls both return the code 2 and whose later calls
succeed, `main` does not return 1: it prints the banner and the catalog and ends in the
listening loop. -/
theorem main_connect_failure_not_fatal :
    main natNetDescriptors
        (stubBackend (some 2) (some 2) (ErrorCode_OK, motiveDescription)
          (ErrorCode_OK, some emptyCatalog)) () =
      (Outcome.listening,
        [Event.SetFrameReceivedCallback 0,
         Event.Connect multicastParams (some 2),
         Event.Connect unicastParams (some 2),
         Event.GetServerDescription 0 motiveDescription,
         Event.printf "已连接 : Motive (版本 3.4.5.6)\n",
         Event.GetDataDescriptionList 0 (some emptyCatalog),
         Event.PrintDataDescriptions emptyCatalog,
         Event.printf "检索到 0 个数据描述:\n",
         Event.printf "\n客户端已连接并正在监听数据...\n"]) := by
  rfl

/-- The last element of a list that ends with two given elements. -/
theorem getLast?_append_pair {α : Type} (l : List α) (x y : α) :
    (l ++ [x, y]).getLast? = some y := by
  rw [show l ++ [x, y] = (l ++ [x]) ++ [y] by simp, List.getLast?_concat]

/-- C3: on every backend, when `main` gets as far as `GetServerDescription` (the Multicast
`Connect` returned `ErrorCode_OK`, or it returned another code and the Unicast `Connect` returned
a code) and the backend answers that call with the code `ret` and a description whose
`HostPresent` is false, `main` returns 1; its trace is the callback registration, the `Connect`
calls, the `GetServerDescription` call and the print of the server-description message with the
decimal of `ret`; that message is the last and the only thing printed, and the trace has no
`GetDataDescriptionList` call, no `PrintDataDescriptions` call and no banner. -/
theorem main_host_absent_fatal {σ : Type} (tags : DataDescriptors) (b : Backend σ)
    (s s1 t t2 : σ) (r0 ret : Int) (d : sServerDescription)
    (hset : b.SetFrameReceivedCallback s = (r0, s1))
    (hconnect :
      b.Connect
        { connectionType := ConnectionType.ConnectionType_Multicast,
          localAddress := "127.0.0.1", serverAddress := "127.0.0.1" } s1 =
          (some ErrorCode_OK, t) ∨
      ∃ r1 s2 r2, r1 ≠ ErrorCode_OK ∧
        b.Connect
          { connectionType := ConnectionType.ConnectionType_Multicast,
            localAddress := "127.0.0.1", serverAddress := "127.0.0.1" } s1 = (some r1, s2) ∧
        b.Connect
          { connectionType := ConnectionType.ConnectionType_Unicast,
            localAddress := "127.0.0.1", serverAddress := "127.0.0.1" } s2 = (some r2, t))
    (hdesc : b.GetServerDescription t = ((ret, d), t2))
    (habsent : d.HostPresent = false) :
    (main tags b s).1 = Outcome.returned 1 ∧
    (∃ connects, (∀ e ∈ connects, ∃ p r, e = Event.Connect p r) ∧
      (main tags b s).2 =
        [Event.SetFrameReceivedCallback r0] ++ connects ++
          [Event.GetServerDescription ret d,
           Event.printf ("无法获取服务器描述。错误代码:" ++ toString ret ++ "。正在退出。\n")]) ∧
    (main tags b s).2.getLast? =
      some (Event.printf ("无法获取服务器描述。错误代码:" ++ toString ret ++ "。正在退出。\n")) ∧
    printed (main tags b s).2 =
      ["无法获取服务器描述。错误代码:" ++ toString ret ++ "。正在退出。\n"] ∧
    (∀ r q, Event.GetDataDescriptionList r q ∉ (main tags b s).2) ∧
    (∀ q, Event.PrintDataDescriptions q ∉ (main tags b s).2) ∧
    (∀ d2 : sServerDescription,
      ("已连接 : " ++ d2.szHostApp ++ " (版本 " ++ toString (d2.HostAppVersion 0) ++ "." ++
        toString (d2.HostAppVersion 1) ++ "." ++ toString (d2.HostAppVersion 2) ++ "." ++
        toString (d2.HostAppVersion 3) ++ ")\n") ∉ printed (main tags b s).2) := by
  have htrace : ∃ connects, (∀ e ∈ connects, ∃ p r, e = Event.Connect p r) ∧
      main tags b s = (Outcome.returned 1,
        [Event.SetFrameReceivedCallback r0] ++ connects ++
          [Event.GetServerDescription ret d,
           Event.printf (serverDescriptionFailedLine ret)]) := by
    rcases hconnect with h1 | ⟨r1, s2, r2, hne, h1, h2⟩
    · have h1b : b.Connect multicastParams s1 = (some ErrorCode_OK, t) := h1
      refine ⟨[Event.Connect multicastParams (some ErrorCode_OK)], by simp, ?_⟩
      simp [main, mainDescribe, hset, h1b, hdesc, habsent]
    · have h1b : b.Connect multicastParams s1 = (some r1, s2) := h1
      have h2b : b.Connect unicastParams s2 = (some r2, t) := h2
      refine ⟨[Event.Connect multicastParams (some r1), Event.Connect unicastParams (some r2)],
        by simp, ?_⟩
      simp [main, mainDescribe, hset, h1b, h2b, hne, hdesc, habsent]
  obtain ⟨connects, hc, hmain⟩ := htrace
  have hfilter : printed ([Event.SetFrameReceivedCallback r0] ++ connects) = [] := by
    simp only [printed, List.filterMap_eq_nil_iff]
    intro e he
    simp only [List.singleton_append, List.mem_cons] at he
    rcases he with rfl | he
    · rfl
    · obtain ⟨p, r, rfl⟩ := hc e he
      rfl
  have hprinted : printed (main tags b s).2 = [serverDescriptionFailedLine ret] := by
    rw [hmain]
    show printed (([Event.SetFrameReceivedCallback r0] ++ connects) ++ _) = _
    unfold printed at hfilter ⊢
    rw [List.filterMap_append, hfilter]
    rfl
  refine ⟨by rw [hmain], ⟨connects, hc, by rw [hmain]; rfl⟩, ?_, hprinted, ?_, ?_, ?_⟩
  · rw [hmain]
    exact getLast?_append_pair _ _ _
  · intro r q hmem
    rw [hmain] at hmem
    simp at hmem
    obtain ⟨p, r, hh⟩ := hc _ hmem
    cases hh
  · intro q hmem
    rw [hmain] at hmem
    simp at hmem
    obtain ⟨p, r, hh⟩ := hc _ hmem
    cases hh
  · intro d2 hmem
    rw [hprinted] at hmem
    simp only [List.mem_singleton] at hmem
    exact serverDescriptionFailedLine_ne_connectedLine ret d2 hmem.symm

/-- C3 at a backend whose `GetServerDescription` returns the code 3 and leaves the description
zeroed. -/
theorem main_host_absent_fatal_witness :
    (stubBackend (some 0) none (3, absentDescription)
      (ErrorCode_OK, some emptyCatalog)).GetServerDescription () =
        ((3, absentDescription), ()) ∧
    absentDescription.HostPresent = false ∧
    (main natNetDescriptors
        (stubBackend (some 0) none (3, absentDescription)
          (ErrorCode_OK, some emptyCatalog)) ()).1 = Outcome.returned 1 ∧
    printed (main natNetDescriptors
        (stubBackend (some 0) none (3, absentDescription)
          (ErrorCode_OK, some emptyCatalog)) ()).2 =
      ["无法获取服务器描述。错误代码:" ++ toString (3 : Int) ++ "。正在退出。\n"] :=
  have h := main_host_absent_fatal natNetDescriptors
    (stubBackend (some 0) none (3, absentDescription) (ErrorCode_OK, some emptyCatalog))
    () () () () 0 3 absentDescription rfl (Or.inl rfl) rfl rfl
  ⟨rfl, rfl, h.1, h.2.2.2.1⟩

/-- The `Connect` phase of `main`: when the backend answers the Multicast `Connect` with
`ErrorCode_OK`, or with another code and the Unicast `Connect` with a code, `main` goes on from
the server description with a trace of the callback registration and the `Connect` calls. -/
theorem main_eq_mainDescribe {σ : Type} (tags : DataDescriptors) (b : Backend σ)
    (s s1 t : σ) (r0 : Int)
    (hset : b.SetFrameReceivedCallback s = (r0, s1))
    (hconnect :
      b.Connect
        { connectionType := ConnectionType.ConnectionType_Multicast,
          localAddress := "127.0.0.1", serverAddress := "127.0.0.1" } s1 =
          (some ErrorCode_OK, t) ∨
      ∃ r1 s2 r2, r1 ≠ ErrorCode_OK ∧
        b.Connect
          { connectionType := ConnectionType.ConnectionType_Multicast,
            localAddress := "127.0.0.1", serverAddress := "127.0.0.1" } s1 = (some r1, s2) ∧
        b.Connect
          { connectionType := ConnectionType.ConnectionType_Unicast,
            localAddress := "127.0.0.1", serverAddress := "127.0.0.1" } s2 = (some r2, t)) :
    ∃ connects, (∀ e ∈ connects, ∃ p r, e = Event.Connect p r) ∧
      main tags b s =
        mainDescribe tags b t ([Event.SetFrameReceivedCallback r0] ++ connects) := by
  rcases hconnect with h1 | ⟨r1, s2, r2, hne, h1, h2⟩
  · have h1b : b.Connect multicastParams s1 = (some ErrorCode_OK, t) := h1
    refine ⟨[Event.Connect multicastParams (some ErrorCode_OK)], by simp, ?_⟩
    simp [main, hset, h1b]
  · have h1b : b.Connect multicastParams s1 = (some r1, s2) := h1
    have h2b : b.Connect unicastParams s2 = (some r2, t) := h2
    refine ⟨[Event.Connect multicastParams (some r1), Event.Connect unicastParams (some r2)],
      by simp, ?_⟩
    simp [main, hset, h1b, h2b, hne]

/-- The callback registration and the `Connect` calls hold no catalog fetch. -/
theorem fetchCalls_connects (r0 : Int) (connects : List Event)
    (hc : ∀ e ∈ connects, ∃ p r, e = Event.Connect p r) :
    fetchCalls ([Event.SetFrameReceivedCallback r0] ++ connects) = 0 := by
  simp only [fetchCalls, List.countP_eq_zero]
  intro e he
  simp only [List.singleton_append, List.mem_cons] at he
  rcases he with rfl | he
  · simp
  · obtain ⟨p, r, rfl⟩ := hc e he
    simp

/-- C4: on every backend, when `main` gets as far as the catalog fetch (the `Connect` phase
succeeds without an exception and `GetServerDescription` returns `ErrorCode_OK` with
`HostPresent` true) and the backend answers `GetDataDescriptionList` with a code `ret` other than
`ErrorCode_OK` or with a null catalog, `main` returns 1; its trace ends with the banner, the one
`GetDataDescriptionList` call and the print of the asset-list message with the decimal of `ret`;
the run has exactly one `GetDataDescriptionList` call and no `PrintDataDescriptions` call. -/
theorem main_fetch_failure_fatal {σ : Type} (tags : DataDescriptors) (b : Backend σ)
    (s s1 t t2 t3 : σ) (r0 ret : Int) (d : sServerDescription) (q : Option sDataDescriptions)
    (hset : b.SetFrameReceivedCallback s = (r0, s1))
    (hconnect :
      b.Connect
        { connectionType := ConnectionType.ConnectionType_Multicast,
          localAddress := "127.0.0.1", serverAddress := "127.0.0.1" } s1 =
          (some ErrorCode_OK, t) ∨
      ∃ r1 s2 r2, r1 ≠ ErrorCode_OK ∧
        b.Connect
          { connectionType := ConnectionType.ConnectionType_Multicast,
            localAddress := "127.0.0.1", serverAddress := "127.0.0.1" } s1 = (some r1, s2) ∧
        b.Connect
          { connectionType := ConnectionType.ConnectionType_Unicast,
            localAddress := "127.0.0.1", serverAddress := "127.0.0.1" } s2 = (some r2, t))
    (hdesc : b.GetServerDescription t = ((ErrorCode_OK, d), t2))
    (hpresent : d.HostPresent = true)
    (hfetch : b.GetDataDescriptionList t2 = ((ret, q), t3))
    (hfail : ret ≠ ErrorCode_OK ∨ q = none) :
    (main tags b s).1 = Outcome.returned 1 ∧
    (∃ connects, (∀ e ∈ connects, ∃ p r, e = Event.Connect p r) ∧
      (main tags b s).2 =
        [Event.SetFrameReceivedCallback r0] ++ connects ++
          [Event.GetServerDescription ErrorCode_OK d,
           Event.printf ("已连接 : " ++ d.szHostApp ++ " (版本 " ++
             toString (d.HostAppVersion 0) ++ "." ++ toString (d.HostAppVersion 1) ++ "." ++
             toString (d.HostAppVersion 2) ++ "." ++ toString (d.HostAppVersion 3) ++ ")\n"),
           Event.GetDataDescriptionList ret q,
           Event.printf ("获取资产列表时出错。错误代码:" ++ toString ret ++ " 正在退出。\n")]) ∧
    (main tags b s).2.getLast? =
      some (Event.printf ("获取资产列表时出错。错误代码:" ++ toString ret ++ " 正在退出。\n")) ∧
    fetchCalls (main tags b s).2 = 1 ∧
    (∀ q2, Event.PrintDataDescriptions q2 ∉ (main tags b s).2) := by
  obtain ⟨connects, hc, hmain⟩ := main_eq_mainDescribe tags b s s1 t r0 hset hconnect
  have hrun : main tags b s = (Outcome.returned 1,
      [Event.SetFrameReceivedCallback r0] ++ connects ++
        [Event.GetServerDescription ErrorCode_OK d, Event.printf (connectedLine d),
         Event.GetDataDescriptionList ret q, Event.printf (assetListFailedLine ret)]) := by
    rw [hmain]
    unfold mainDescribe mainFetch
    rcases hfail with hne | hq
    · cases q <;> simp [hdesc, hpresent, hfetch, hne]
    · subst hq
      simp [hdesc, hpresent, hfetch]
  have hcount := fetchCalls_connects r0 connects hc
  refine ⟨by rw [hrun], ⟨connects, hc, by rw [hrun]; rfl⟩, ?_, ?_, ?_⟩
  · rw [hrun]
    have e : [Event.SetFrameReceivedCallback r0] ++ connects ++
        [Event.GetServerDescription ErrorCode_OK d, Event.printf (connectedLine d),
         Event.GetDataDescriptionList ret q, Event.printf (assetListFailedLine ret)] =
        ([Event.SetFrameReceivedCallback r0] ++ connects ++
          [Event.GetServerDescription ErrorCode_OK d, Event.printf (connectedLine d)]) ++
        [Event.GetDataDescriptionList ret q, Event.printf (assetListFailedLine ret)] := by
      simp
    show List.getLast? _ = _
    rw [e]
    exact getLast?_append_pair _ _ _
  · rw [hrun]
    unfold fetchCalls at hcount ⊢
    show List.countP _ (([Event.SetFrameReceivedCallback r0] ++ connects) ++ _) = 1
    rw [List.countP_append, hcount]
    rfl
  · intro q2 hmem
    rw [hrun] at hmem
    simp at hmem
    obtain ⟨p, r, hh⟩ := hc _ hmem
    cases hh

/-- C4 at a backend whose Multicast `Connect` fails, whose Unicast `Connect` succeeds and whose
`GetDataDescriptionList` returns the code 3 and a null catalog. -/
theorem main_fetch_failure_fatal_witness :
    (stubBackend (some 2) (some 0) (ErrorCode_OK, motiveDescription)
      (3, none)).GetDataDescriptionList () = ((3, none), ()) ∧
    (main natNetDescriptors
        (stubBackend (some 2) (some 0) (ErrorCode_OK, motiveDescription) (3, none)) ()).1 =
      Outcome.returned 1 ∧
    (main natNetDescriptors
        (stubBackend (some 2) (some 0) (ErrorCode_OK, motiveDescription)
          (3, none)) ()).2.getLast? =
      some (Event.printf ("获取资产列表时出错。错误代码:" ++ toString (3 : Int) ++ " 正在退出。\n")) ∧
    fetchCalls (main natNetDescriptors
        (stubBackend (some 2) (some 0) (ErrorCode_OK, motiveDescription) (3, none)) ()).2 = 1 :=
  have h := main_fetch_failure_fatal natNetDescriptors
    (stubBackend (some 2) (some 0) (ErrorCode_OK, motiveDescription) (3, none))
    () () () () () 0 3 motiveDescription none rfl
    (Or.inr ⟨2, (), 0, by decide, rfl, rfl⟩) rfl rfl rfl (Or.inl (by decide))
  ⟨rfl, h.1, h.2.2.1, h.2.2.2.1⟩

/-- C5, as stated, fails: on a backend whose `GetDataDescriptionList` returns `ErrorCode_OK`
with a non-null catalog of 0 descriptions, `main` does not return 1; it ends in the listening
loop. -/
theorem main_empty_catalog_not_fatal :
    Event.GetDataDescriptionList ErrorCode_OK (some emptyCatalog) ∈
      (main natNetDescriptors
        (stubBackend (some 0) none (ErrorCode_OK, motiveDescription)
          (ErrorCode_OK, some emptyCatalog)) ()).2 ∧
    emptyCatalog.nDataDescriptions = 0 ∧
    (main natNetDescriptors
        (stubBackend (some 0) none (ErrorCode_OK, motiveDescription)
          (ErrorCode_OK, some emptyCatalog)) ()).1 = Outcome.listening ∧
    (main natNetDescriptors
        (stubBackend (some 0) none (ErrorCode_OK, motiveDescription)
          (ErrorCode_OK, some emptyCatalog)) ()).1 ≠ Outcome.returned 1 := by
  have e : main natNetDescriptors
      (stubBackend (some 0) none (ErrorCode_OK, motiveDescription)
        (ErrorCode_OK, some emptyCatalog)) () =
      (Outcome.listening,
        [Event.SetFrameReceivedCallback 0, Event.Connect multicastParams (some 0),
         Event.GetServerDescription ErrorCode_OK motiveDescription,
         Event.printf (connectedLine motiveDescription),
         Event.GetDataDescriptionList ErrorCode_OK (some emptyCatalog),
         Event.PrintDataDescriptions emptyCatalog,
         Event.printf (retrievedLine 0),
         Event.printf listeningLine]) := rfl
  rw [e]
  simp [emptyCatalog]

/-- C5, amended: on every backend, when `main` gets as far as the catalog fetch and the backend
answers `GetDataDescriptionList` with `ErrorCode_OK` and a non-null catalog whose
`nDataDescriptions` is 0, the fetch is not an error: `main` calls `PrintDataDescriptions`, which
prints the line for 0 descriptions, prints the listening line and stays in the listening loop; it
does not return. -/
theorem main_empty_catalog_listens {σ : Type} (tags : DataDescriptors) (b : Backend σ)
    (s s1 t t2 t3 : σ) (r0 : Int) (d : sServerDescription) (pDataDefs : sDataDescriptions)
    (hset : b.SetFrameReceivedCallback s = (r0, s1))
    (hconnect :
      b.Connect
        { connectionType := ConnectionType.ConnectionType_Multicast,
          localAddress := "127.0.0.1", serverAddress := "127.0.0.1" } s1 =
          (some ErrorCode_OK, t) ∨
      ∃ r1 s2 r2, r1 ≠ ErrorCode_OK ∧
        b.Connect
          { connectionType := ConnectionType.ConnectionType_Multicast,
            localAddress := "127.0.0.1", serverAddress := "127.0.0.1" } s1 = (some r1, s2) ∧
        b.Connect
          { connectionType := ConnectionType.ConnectionType_Unicast,
            localAddress := "127.0.0.1", serverAddress := "127.0.0.1" } s2 = (some r2, t))
    (hdesc : b.GetServerDescription t = ((ErrorCode_OK, d), t2))
    (hpresent : d.HostPresent = true)
    (hfetch : b.GetDataDescriptionList t2 = ((ErrorCode_OK, some pDataDefs), t3))
    (hempty : pDataDefs.nDataDescriptions = 0) :
    (main tags b s).1 = Outcome.listening ∧
    (∀ code, (main tags b s).1 ≠ Outcome.returned code) ∧
    ∃ connects, (∀ e ∈ connects, ∃ p r, e = Event.Connect p r) ∧
      (main tags b s).2 =
        [Event.SetFrameReceivedCallback r0] ++ connects ++
          [Event.GetServerDescription ErrorCode_OK d,
           Event.printf ("已连接 : " ++ d.szHostApp ++ " (版本 " ++
             toString (d.HostAppVersion 0) ++ "." ++ toString (d.HostAppVersion 1) ++ "." ++
             toString (d.HostAppVersion 2) ++ "." ++ toString (d.HostAppVersion 3) ++ ")\n"),
           Event.GetDataDescriptionList ErrorCode_OK (some pDataDefs),
           Event.PrintDataDescriptions pDataDefs,
           Event.printf "检索到 0 个数据描述:\n",
           Event.printf "\n客户端已连接并正在监听数据...\n"] := by
  obtain ⟨connects, hc, hmain⟩ := main_eq_mainDescribe tags b s s1 t r0 hset hconnect
  have hprint : PrintDataDescriptions tags pDataDefs = some ["检索到 0 个数据描述:\n"] := by
    simp [PrintDataDescriptions, forInt, forUpTo, hempty, retrievedLine, fmt_d]
    rfl
  have hrun : main tags b s = (Outcome.listening,
      [Event.SetFrameReceivedCallback r0] ++ connects ++
        [Event.GetServerDescription ErrorCode_OK d, Event.printf (connectedLine d),
         Event.GetDataDescriptionList ErrorCode_OK (some pDataDefs),
         Event.PrintDataDescriptions pDataDefs,
         Event.printf "检索到 0 个数据描述:\n",
         Event.printf listeningLine]) := by
    rw [hmain]
    unfold mainDescribe mainFetch
    simp [hdesc, hpresent, hfetch, hprint]
  refine ⟨by rw [hrun], ?_, ⟨connects, hc, by rw [hrun]; rfl⟩⟩
  intro code
  rw [hrun]
  simp

/-- C5 amended, at a backend that returns the empty catalog. -/
theorem main_empty_catalog_listens_witness :
    (stubBackend (some 0) none (ErrorCode_OK, motiveDescription)
      (ErrorCode_OK, some emptyCatalog)).GetDataDescriptionList () =
        ((ErrorCode_OK, some emptyCatalog), ()) ∧
    emptyCatalog.nDataDescriptions = 0 ∧
    (main natNetDescriptors
        (stubBackend (some 0) none (ErrorCode_OK, motiveDescription)
          (ErrorCode_OK, some emptyCatalog)) ()).1 = Outcome.listening :=
  ⟨rfl, rfl,
   (main_empty_catalog_listens natNetDescriptors
      (stubBackend (some 0) none (ErrorCode_OK, motiveDescription)
        (ErrorCode_OK, some emptyCatalog)) () () () () () 0 motiveDescription emptyCatalog
      rfl (Or.inl rfl) rfl rfl rfl rfl).1⟩

/-! ## Bit tests and composite ids -/

/-- The bit pattern of a value that is not negative. -/
theorem bits32_ofNat (n : Nat) : bits32 (n : Int) = n % 2 ^ 32 := by
  unfold bits32
  have h : ((n : Int) % 2 ^ 32) = ((n % 2 ^ 32 : Nat) : Int) := by norm_cast
  rw [h, Int.toNat_ofNat]

/-- The bit pattern of a negative value, in two's complement. -/
theorem bits32_negSucc (n : Nat) : bits32 (Int.negSucc n) = 2 ^ 32 - (n % 2 ^ 32 + 1) := by
  show (Int.negSucc n % 4294967296).toNat = 4294967296 - (n % 4294967296 + 1)
  rw [Int.negSucc_eq]
  omega

/-- The low 32 bits of the pattern are the bits of the value. -/
theorem bits32_testBit (p : Int) (i : Nat) (hi : i < 32) :
    (bits32 p).testBit i = p.testBit i := by
  cases p with
  | ofNat n =>
    show (bits32 (n : Int)).testBit i = n.testBit i
    rw [bits32_ofNat, Nat.testBit_mod_two_pow]
    simp [hi]
  | negSucc n =>
    rw [bits32_negSucc, Nat.testBit_two_pow_sub_succ (Nat.mod_lt _ (by norm_num)),
      Nat.testBit_mod_two_pow]
    simp [hi, Int.testBit]

/-- A bit pattern has 32 bits. -/
theorem bits32_lt (p : Int) : bits32 p < 2 ^ 32 := by
  unfold bits32
  omega

/-- The test `(p & mask) != 0` for a one-bit mask reads that bit of `p`. -/
theorem bitAnd_two_pow_ne_zero (p : Int) (k : Nat) (hk : k < 31) :
    (bitAnd p ((2 ^ k : Nat) : Int) != 0) = p.testBit k := by
  have h2 : (2 : Nat) ^ k < 2 ^ 31 := Nat.pow_lt_pow_right (by norm_num) hk
  have hb : bits32 ((2 ^ k : Nat) : Int) = 2 ^ k := by
    rw [bits32_ofNat]
    exact Nat.mod_eq_of_lt (by omega)
  have h3 : (2 : Nat) ^ k % 2 ^ 32 = 2 ^ k := Nat.mod_eq_of_lt (by omega)
  unfold bitAnd
  rw [hb, Nat.and_two_pow, bits32_testBit p k (by omega)]
  unfold ofBits32
  cases p.testBit k
  · simp
  · simp only [Bool.toNat_true, one_mul]
    rw [h3, if_pos h2]
    simp

/-- The kind word in terms of bit 5 (mask 0x20) and bit 4 (mask 0x10) of `params`. -/
theorem szMarkerType_eq (params : Int) :
    szMarkerType params =
      if params.testBit 5 then "Active"
      else if params.testBit 4 then "Unlabeled"
      else "Labeled" := by
  have h5 : (bitAnd params 0x20 != 0) = params.testBit 5 :=
    bitAnd_two_pow_ne_zero params 5 (by norm_num)
  have h4 : (bitAnd params 0x10 != 0) = params.testBit 4 :=
    bitAnd_two_pow_ne_zero params 4 (by norm_num)
  unfold szMarkerType
  simp only [h4, h5]

/-- Decoding reverses encoding on 16-bit parts. -/
theorem decode_encode (high low : Nat) (hh : high < 2 ^ 16) (hl : low < 2 ^ 16) :
    NatNet_DecodeID (encodeID high low) = ((high : Int), (low : Int)) := by
  have key : bits32 (encodeID high low) = high * 2 ^ 16 + low := by
    unfold encodeID ofBits32 bits32
    split <;> omega
  unfold NatNet_DecodeID
  rw [key]
  have h1 : (high * 2 ^ 16 + low) / 2 ^ 16 = high := by omega
  have h2 : (high * 2 ^ 16 + low) % 2 ^ 16 = low := by omega
  rw [h1, h2]

/-- Both decoded parts are 16-bit values. -/
theorem decode_range (id : Int) :
    0 ≤ (NatNet_DecodeID id).1 ∧ (NatNet_DecodeID id).1 < 2 ^ 16 ∧
    0 ≤ (NatNet_DecodeID id).2 ∧ (NatNet_DecodeID id).2 < 2 ^ 16 := by
  have h := bits32_lt id
  unfold NatNet_DecodeID
  simp only
  omega

/-- Encoding reverses decoding on 32-bit ids. -/
theorem encode_decode (id : Int) (h : -2 ^ 31 ≤ id ∧ id < 2 ^ 31) :
    encodeID (NatNet_DecodeID id).1.toNat (NatNet_DecodeID id).2.toNat = id := by
  unfold NatNet_DecodeID encodeID ofBits32 bits32
  simp only [Int.toNat_ofNat]
  split <;> omega

/-! ## Loops -/

/-- A loop whose iterations all succeed yields their outputs in order. -/
theorem forUpTo_eq_some (k : Nat) (body : Nat → Option (List String)) (g : Nat → List String)
    (h : ∀ i, i < k → body i = some (g i)) :
    forUpTo k body = some ((List.range k).map g).flatten := by
  induction k with
  | zero => rfl
  | succ k ih =>
    have h1 := ih (fun i hi => h i (Nat.lt_succ_of_lt hi))
    have h2 := h k (Nat.lt_succ_self k)
    simp [forUpTo, h1, h2, List.range_succ]

/-- A loop whose iterations all succeed succeeds. -/
theorem forUpTo_of_isSome (k : Nat) (body : Nat → Option (List String))
    (h : ∀ i, i < k → (body i).isSome = true) :
    forUpTo k body = some ((List.range k).map (fun i => (body i).getD [])).flatten := by
  apply forUpTo_eq_some
  intro i hi
  have := h i hi
  cases hb : body i with
  | none => simp [hb] at this
  | some out => simp

/-- A loop over the first `k` cells of an array that writes one line per cell. -/
theorem forUpTo_lines {α : Type} (k : Nat) (xs : List α) (f : α → String) (hk : k ≤ xs.length) :
    forUpTo k (fun i => (xs[i]?).bind (fun x => some [f x])) = some ((xs.take k).map f) := by
  induction k with
  | zero => simp [forUpTo]
  | succ k ih =>
    have hlt : k < xs.length := hk
    rw [forUpTo, ih (Nat.le_of_lt hlt), List.take_succ, List.getElem?_eq_getElem hlt]
    simp only [Option.some_bind, Option.toList_some, List.map_append, List.map_cons, List.map_nil]

/-- A loop over the first `k` cells of an array succeeds when its body does on each of them. -/
theorem forUpTo_cells_isSome {α : Type} (k : Nat) (xs : List α)
    (f : Nat → α → Option (List String)) (hk : k ≤ xs.length)
    (hf : ∀ i x, i < k → xs[i]? = some x → (f i x).isSome = true) (i : Nat) (hi : i < k) :
    ((xs[i]?).bind (f i)).isSome = true := by
  have hlt : i < xs.length := Nat.lt_of_lt_of_le hi hk
  have := hf i xs[i] hi (List.getElem?_eq_getElem hlt)
  simpa [List.getElem?_eq_getElem hlt] using this

/-- A counted loop whose iterations all succeed hands its output to what follows. -/
theorem forInt_bind {β : Type} (n : Int) (body : Nat → Option (List String))
    (k : List String → Option β) (h : ∀ i, i < n.toNat → (body i).isSome = true) :
    (forInt n body).bind k = k (loopOutput n.toNat body) := by
  unfold forInt loopOutput
  rw [forUpTo_of_isSome n.toNat body h]
  rfl

/-- A loop that is not entered has no output. -/
theorem loopOutput_of_nonpos (n : Int) (body : Nat → Option (List String)) (hn : n ≤ 0) :
    loopOutput n.toNat body = [] := by
  have h0 : n.toNat = 0 := by omega
  simp [loopOutput, h0]

/-- The output of a loop that writes one line per cell. -/
theorem loopOutput_lines {α : Type} (k : Nat) (xs : List α) (f : α → String)
    (hk : k ≤ xs.length) :
    loopOutput k (fun i => (xs[i]?).bind (fun x => some [f x])) = (xs.take k).map f := by
  have h1 := forUpTo_lines k xs f hk
  have h2 := forUpTo_of_isSome k (fun i => (xs[i]?).bind (fun x => some [f x]))
    (forUpTo_cells_isSome k xs (fun _ x => some [f x]) hk (by simp))
  rw [h1] at h2
  exact (Option.some.inj h2).symm

/-- The body of the skeleton loop succeeds on a well-formed skeleton. -/
theorem skeletonEntry_isSome (sk : sSkeletonData) (h : sk.WellFormed) :
    (skeletonEntry sk).isSome = true := by
  unfold skeletonEntry
  simp only [Option.bind_eq_bind, Option.pure_def]
  rw [forInt_bind]
  · rfl
  · exact forUpTo_cells_isSome _ _ _ h (by simp)

/-- The body of the asset loop succeeds on a well-formed asset. -/
theorem assetEntry_isSome (mulf : CFloat → CFloat → CFloat) (a : sAssetData)
    (h : a.WellFormed) : (assetEntry mulf a).isSome = true := by
  unfold assetEntry
  simp only [Option.bind_eq_bind, Option.pure_def]
  rw [forInt_bind, forInt_bind]
  · rfl
  · exact forUpTo_cells_isSome _ _ _ h.2 (by simp)
  · exact forUpTo_cells_isSome _ _ _ h.1 (by simp)

/-- The body of a channel loop succeeds on a well-formed channel. -/
theorem channelEntry_isSome (channels : List sAnalogChannelData) (i : Nat)
    (c : sAnalogChannelData) (hc : channels[i]? = some c) (h : c.WellFormed) :
    (channelEntry channels i).isSome = true := by
  unfold channelEntry
  simp only [Option.bind_eq_bind, Option.pure_def, hc, Option.some_bind]
  rw [forInt_bind]
  · rfl
  · exact forUpTo_cells_isSome _ _ _ h (by simp)

/-- The body of the force-plate and device loops succeeds on well-formed data. -/
theorem analogEntry_isSome (label : String) (d : sAnalogDeviceData) (h : d.WellFormed) :
    (analogEntry label d).isSome = true := by
  unfold analogEntry
  simp only [Option.bind_eq_bind, Option.pure_def]
  rw [forInt_bind]
  · rfl
  · intro i hi
    have hlt : i < d.ChannelData.length := Nat.lt_of_lt_of_le hi h.1
    exact channelEntry_isSome _ i _ (List.getElem?_eq_getElem hlt)
      (h.2 i _ hi (List.getElem?_eq_getElem hlt))

/-- The output of `PrintData` on a well-formed frame: the opening lines and the six sections,
each a separator, a header and the entries. -/
theorem PrintData_sections (mulf : CFloat → CFloat → CFloat) (data : sFrameOfMocapData)
    (hwf : data.WellFormed) :
    ∃ rigidBodies skeletons assets forcePlates devices : List String,
      PrintData mulf data = some (frameOpening data ++
        [sectionSeparator, rigidBodiesHeader data.nRigidBodies] ++ rigidBodies ++
        [sectionSeparator, skeletonsHeader data.nSkeletons] ++ skeletons ++
        [sectionSeparator, assetsHeader data.nAssets] ++ assets ++
        [sectionSeparator, markersHeader data.nLabeledMarkers] ++
          (data.LabeledMarkers.take data.nLabeledMarkers.toNat).map labeledMarkerEntry ++
        [sectionSeparator, forcePlatesHeader data.nForcePlates] ++ forcePlates ++
        [sectionSeparator, devicesHeader data.nDevices] ++ devices) ∧
      (data.nRigidBodies ≤ 0 → rigidBodies = []) ∧
      (data.nSkeletons ≤ 0 → skeletons = []) ∧
      (data.nAssets ≤ 0 → assets = []) ∧
      (data.nForcePlates ≤ 0 → forcePlates = []) ∧
      (data.nDevices ≤ 0 → devices = []) := by
  obtain ⟨h1, h2, h3, h4, h5, h6, h7, h8, h9, h10⟩ := hwf
  refine ⟨loopOutput data.nRigidBodies.toNat
      (fun i => (data.RigidBodies[i]?).bind (fun rb => some (rigidBodyEntry rb))),
    loopOutput data.nSkeletons.toNat
      (fun i => (data.Skeletons[i]?).bind (fun skData => skeletonEntry skData)),
    loopOutput data.nAssets.toNat
      (fun i => (data.Assets[i]?).bind (fun asset => assetEntry mulf asset)),
    loopOutput data.nForcePlates.toNat
      (fun i => (data.ForcePlates[i]?).bind (fun plate => analogEntry "Force Plate" plate)),
    loopOutput data.nDevices.toNat
      (fun i => (data.Devices[i]?).bind (fun device => analogEntry "Device" device)),
    ?_, loopOutput_of_nonpos _ _, loopOutput_of_nonpos _ _, loopOutput_of_nonpos _ _,
    loopOutput_of_nonpos _ _, loopOutput_of_nonpos _ _⟩
  unfold PrintData
  simp only [Option.bind_eq_bind, Option.pure_def]
  rw [forInt_bind, forInt_bind, forInt_bind, forInt_bind, forInt_bind, forInt_bind,
    loopOutput_lines _ _ _ h6]
  · exact forUpTo_cells_isSome _ _ _ h9 (fun i d hi hd => analogEntry_isSome _ d (h10 i d hi hd))
  · exact forUpTo_cells_isSome _ _ _ h7 (fun i d hi hd => analogEntry_isSome _ d (h8 i d hi hd))
  · exact forUpTo_cells_isSome _ _ _ h6 (by simp)
  · exact forUpTo_cells_isSome _ _ _ h4 (fun i a hi ha => assetEntry_isSome _ a (h5 i a hi ha))
  · exact forUpTo_cells_isSome _ _ _ h2
      (fun i sk hi hsk => skeletonEntry_isSome sk (h3 i sk hi hsk))
  · exact forUpTo_cells_isSome _ _ _ h1 (by simp)

/-- A loop over the first `k` cells of an array whose body writes `f i x` for cell `i` with
content `x`: the output is that of the cells in order, each with its index. -/
theorem forUpTo_cells {α : Type} (k : Nat) (xs : List α) (body : Nat → Option (List String))
    (f : Nat → α → List String) (hk : k ≤ xs.length)
    (hbody : ∀ i x, i < k → xs[i]? = some x → body i = some (f i x)) :
    forUpTo k body = some (((xs.take k).enum.map (fun p => f p.1 p.2)).flatten) := by
  induction k with
  | zero => simp [forUpTo]
  | succ k ih =>
    have hlt : k < xs.length := hk
    have hget : xs[k]? = some xs[k] := List.getElem?_eq_getElem hlt
    have hlen : (List.take k xs).length = k := by
      rw [List.length_take]
      exact Nat.min_eq_left (Nat.le_of_lt hlt)
    have e : (List.take (k + 1) xs).enum = (List.take k xs).enum ++ [(k, xs[k])] := by
      rw [List.take_succ, hget, List.enum_append, hlen]
      rfl
    rw [forUpTo, ih (Nat.le_of_lt hlt) (fun i x hi hx => hbody i x (Nat.lt_succ_of_lt hi) hx),
      hbody k xs[k] (Nat.lt_succ_self k) hget, e, List.map_append, List.flatten_append]
    simp

/-- A counted loop over the cells of an array hands the output of the cells, each with its
index, to what follows. -/
theorem forInt_cells_bind {α β : Type} (n : Int) (xs : List α)
    (body : Nat → Option (List String)) (f : Nat → α → List String)
    (cont : List String → Option β) (hn : n.toNat ≤ xs.length)
    (hbody : ∀ i x, i < n.toNat → xs[i]? = some x → body i = some (f i x)) :
    (forInt n body).bind cont =
      cont (((xs.take n.toNat).enum.map (fun p => f p.1 p.2)).flatten) := by
  unfold forInt
  rw [forUpTo_cells n.toNat xs body f hn hbody]
  rfl

/-- A counted loop over the cells of an array whose body does not use the index. -/
theorem forInt_each_bind {α β : Type} (n : Int) (xs : List α)
    (body : Nat → Option (List String)) (f : α → List String)
    (cont : List String → Option β) (hn : n.toNat ≤ xs.length)
    (hbody : ∀ i x, i < n.toNat → xs[i]? = some x → body i = some (f x)) :
    (forInt n body).bind cont = cont (((xs.take n.toNat).map f).flatten) := by
  rw [forInt_cells_bind n xs body (fun _ x => f x) cont hn hbody]
  congr 2
  generalize List.take n.toNat xs = l
  have h : ∀ (m : Nat) (l : List α),
      List.map (fun p : Nat × α => f p.2) (List.enumFrom m l) = List.map f l := by
    intro m l
    induction l generalizing m with
    | nil => rfl
    | cons a l ih => simp [List.enumFrom_cons, ih]
  exact h 0 l

/-! ## `PrintData` -/

/-- C8: on the frame `zeroFrame`, whose six counts are all 0, `PrintData` writes the opening
lines, six separators and six headers and no entry; the header of the asset section is
`Assets [Count=0]`, without the blanks of the five other headers, so the text `Count = 0` stands
five times in the output and not six. -/
theorem PrintData_zero_frame_five_headers :
    PrintData CFloat.mulExact zeroFrame =
      some ["\n=====================  New Packet Arrived  =============================\n",
            "FrameID : 7\n", "Timestamp : 0.00\n",
            "------------------------\n", "Rigid Bodies [ Count = 0 ]\n",
            "------------------------\n", "Skeletons [ Count = 0 ]\n",
            "------------------------\n", "Assets [Count=0]\n",
            "------------------------\n", "Markers [ Count = 0 ]\n",
            "------------------------\n", "Force Plates [ Count = 0 ]\n",
            "------------------------\n", "Devices [ Count = 0 ]\n"] ∧
    (∀ out, PrintData CFloat.mulExact zeroFrame = some out →
      countInOutput "Count = 0" out = 5 ∧ countInOutput "Count = 0" out ≠ 6) ∧
    countInOutput "Count = 0" [assetsHeader 0] = 0 := by
  have e : PrintData CFloat.mulExact zeroFrame =
      some ["\n=====================  New Packet Arrived  =============================\n",
            "FrameID : 7\n", "Timestamp : 0.00\n",
            "------------------------\n", "Rigid Bodies [ Count = 0 ]\n",
            "------------------------\n", "Skeletons [ Count = 0 ]\n",
            "------------------------\n", "Assets [Count=0]\n",
            "------------------------\n", "Markers [ Count = 0 ]\n",
            "------------------------\n", "Force Plates [ Count = 0 ]\n",
            "------------------------\n", "Devices [ Count = 0 ]\n"] := by decide
  refine ⟨e, ?_, by decide⟩
  intro out h
  rw [e] at h
  cases h
  decide

/-- C10: on every well-formed frame the labeled-marker section of the output of `PrintData` is
one line per labeled marker, in order, and the line of a marker starts with a kind word fixed by
two bits of its `params`: `Active` exactly when bit 0x20 is set, `Unlabeled` exactly when bit
0x20 is clear and bit 0x10 is set, `Labeled` exactly when both are clear; the word is always one
of the three, and a marker with both bits set is `Active`. -/
theorem PrintData_marker_kind (mulf : CFloat → CFloat → CFloat) (data : sFrameOfMocapData)
    (hwf : data.WellFormed) :
    (∃ before after, PrintData mulf data = some (before ++
        [markersHeader data.nLabeledMarkers] ++
        (data.LabeledMarkers.take data.nLabeledMarkers.toNat).map labeledMarkerEntry ++ after)) ∧
    ∀ marker : sMarker,
      labeledMarkerEntry marker = szMarkerType marker.params ++ labeledMarkerFields marker ∧
      (szMarkerType marker.params = "Active" ↔ marker.params.testBit 5 = true) ∧
      (szMarkerType marker.params = "Unlabeled" ↔
        (marker.params.testBit 5 = false ∧ marker.params.testBit 4 = true)) ∧
      (szMarkerType marker.params = "Labeled" ↔
        (marker.params.testBit 5 = false ∧ marker.params.testBit 4 = false)) ∧
      (szMarkerType marker.params = "Active" ∨ szMarkerType marker.params = "Unlabeled" ∨
        szMarkerType marker.params = "Labeled") ∧
      (marker.params.testBit 5 = true → marker.params.testBit 4 = true →
        szMarkerType marker.params = "Active") := by
  constructor
  · obtain ⟨rb, sk, ast, fp, dv, heq, -⟩ := PrintData_sections mulf data hwf
    refine ⟨frameOpening data ++
        [sectionSeparator, rigidBodiesHeader data.nRigidBodies] ++ rb ++
        [sectionSeparator, skeletonsHeader data.nSkeletons] ++ sk ++
        [sectionSeparator, assetsHeader data.nAssets] ++ ast ++ [sectionSeparator],
      [sectionSeparator, forcePlatesHeader data.nForcePlates] ++ fp ++
        [sectionSeparator, devicesHeader data.nDevices] ++ dv, ?_⟩
    rw [heq]
    simp
  · intro marker
    rw [szMarkerType_eq]
    cases h5 : marker.params.testBit 5 <;> cases h4 : marker.params.testBit 4 <;>
      simp [labeledMarkerEntry, szMarkerType_eq, h5, h4]

/-- C10 at the frame `markerFrame`, whose markers have params 0x30, 0x10 and 0x01. -/
theorem PrintData_marker_kind_witness :
    markerFrame.WellFormed ∧
    szMarkerType (markerWith 0x30).params = "Active" ∧
    szMarkerType (markerWith 0x10).params = "Unlabeled" ∧
    szMarkerType (markerWith 0x01).params = "Labeled" ∧
    ((markerWith 0x30).params.testBit 5 = true ∧ (markerWith 0x30).params.testBit 4 = true) :=
  have hwf : markerFrame.WellFormed := by
    simp [sFrameOfMocapData.WellFormed, markerFrame, zeroFrame]
  have h := (PrintData_marker_kind CFloat.mulExact markerFrame hwf).2
  ⟨hwf, (h (markerWith 0x30)).2.1.2 (by decide), (h (markerWith 0x10)).2.2.1.2 (by decide),
    (h (markerWith 0x01)).2.2.2.1.2 (by decide), by decide⟩

/-! ## `PrintDataDescriptions` -/

/-- Two texts that start with different characters are different. -/
theorem ne_of_head_ne (s t : String) (h : s.data.head? ≠ t.data.head?) : s ≠ t :=
  fun e => h (by rw [e])

/-- The marker-set branch on a well-formed marker set. -/
theorem printMarkerSet_eq (p : sMarkerSetDescription) (h : p.WellFormed) :
    ∃ names, printMarkerSet p = some (("标记集名称 : " ++ p.szName ++ "\n") :: names) := by
  unfold printMarkerSet
  simp only [Option.bind_eq_bind, Option.pure_def]
  rw [forInt_bind]
  · exact ⟨_, rfl⟩
  · exact forUpTo_cells_isSome _ _ _ h (by simp)

/-- The marker loop of the rigid-body branch succeeds when both arrays cover the count. -/
theorem rigidBodyMarkerLines_isSome (positions : List MarkerData) (labels : List Int) (i : Nat)
    (h1 : i < positions.length) (h2 : i < labels.length) :
    (rigidBodyMarkerLines positions labels i).isSome = true := by
  unfold rigidBodyMarkerLines
  simp [List.getElem?_eq_getElem h1, List.getElem?_eq_getElem h2]

/-- The rigid-body branch on a well-formed rigid body. -/
theorem printRigidBody_eq (p : sRigidBodyDescription) (h : p.WellFormed) :
    ∃ markers, printRigidBody p = some (rigidBodyLines "" p ++ markers) := by
  unfold printRigidBody
  simp only [Option.bind_eq_bind, Option.pure_def]
  split
  · rename_i positions labels hp hl
    have hw := h positions labels hp hl
    rw [forInt_bind]
    · exact ⟨_, rfl⟩
    · intro i hi
      exact rigidBodyMarkerLines_isSome _ _ i (by omega) (by omega)
  · exact ⟨[], rfl⟩

/-- The skeleton branch on a well-formed skeleton. -/
theorem printSkeleton_eq (p : sSkeletonDescription) (h : p.WellFormed) :
    ∃ rest, printSkeleton p = some (("骨骼名称 : " ++ p.szName ++ "\n") :: rest) := by
  unfold printSkeleton
  simp only [Option.bind_eq_bind, Option.pure_def]
  rw [forInt_bind]
  · exact ⟨_, rfl⟩
  · exact forUpTo_cells_isSome _ _ _ h (by simp)

/-- The asset branch on a well-formed asset. -/
theorem printAsset_eq (p : sAssetDescription) (h : p.WellFormed) :
    ∃ rest, printAsset p = some (("训练标记集名称 : " ++ p.szName ++ "\n") :: rest) := by
  unfold printAsset
  simp only [Option.bind_eq_bind, Option.pure_def]
  rw [forInt_bind, forInt_bind]
  · exact ⟨_, rfl⟩
  · exact forUpTo_cells_isSome _ _ _ h.2 (by simp)
  · exact forUpTo_cells_isSome _ _ _ h.1 (by simp)

/-- The channel-name loop succeeds when the names cover the count. -/
theorem channelNameLines_eq (n : Int) (names : List String) (h : n.toNat ≤ names.length) :
    ∃ out, channelNameLines n names = some out := by
  unfold channelNameLines
  simp only [Option.bind_eq_bind, Option.pure_def]
  exact ⟨_, forUpTo_of_isSome _ _ (forUpTo_cells_isSome _ _ _ h (by simp))⟩

/-- The force-plate branch on a well-formed force plate. -/
theorem printForcePlate_eq (p : sForcePlateDescription) (h : p.WellFormed) :
    ∃ rest, printForcePlate p = some (("力板 ID : " ++ fmt_d p.ID ++ "\n") :: rest) := by
  obtain ⟨out, hout⟩ := channelNameLines_eq p.nChannels p.szChannelNames h
  unfold printForcePlate
  simp only [Option.bind_eq_bind, Option.pure_def, hout, forUpTo, Option.some_bind]
  exact ⟨_, rfl⟩

/-- The device branch on a well-formed device. -/
theorem printDevice_eq (p : sDeviceDescription) (h : p.WellFormed) :
    ∃ rest, printDevice p = some (("设备名称 : " ++ p.strName ++ "\n") :: rest) := by
  obtain ⟨out, hout⟩ := channelNameLines_eq p.nChannels p.szChannelNames h
  unfold printDevice
  simp only [Option.bind_eq_bind, Option.pure_def, hout, Option.some_bind]
  exact ⟨_, rfl⟩

/-- A body that starts with a line other than the unknown-type line, printed for one of the
seven tags. -/
theorem body_iff_of_known (tags : DataDescriptors) (type : Int) (first : String)
    (rest : List String) (hmem : type ∈ tags.all) (hne : first ≠ unknownTypeLine) :
    (first :: rest = [unknownTypeLine] ↔ type ∉ tags.all) := by
  simp [hmem, hne]

/-- The body of a well-formed description: it is printed, and it is the single line of the
unknown-type branch exactly when the tag is none of the seven. -/
theorem printDescriptionBody_wf (tags : DataDescriptors) (d : sDataDescription)
    (hwf : d.WellFormed tags) :
    ∃ body, printDescriptionBody tags d = some body ∧
      (body = [unknownTypeLine] ↔ d.type ∉ tags.all) := by
  obtain ⟨w1, w2, w3, w4, w5, w6, w7⟩ := hwf
  unfold printDescriptionBody
  split
  · rename_i ht
    obtain ⟨p, hp, hpw⟩ := w1 ht
    obtain ⟨rest, hrest⟩ := printMarkerSet_eq p hpw
    rw [hp]
    exact ⟨_, hrest, body_iff_of_known tags d.type _ rest (by simp [DataDescriptors.all, ht])
      (ne_of_head_ne _ _ (by simp [String.data_append, unknownTypeLine]))⟩
  split
  · rename_i ht
    obtain ⟨p, hp, hpw⟩ := w2 ht
    obtain ⟨rest, hrest⟩ := printRigidBody_eq p hpw
    rw [hp]
    exact ⟨_, hrest, body_iff_of_known tags d.type _ _ (by simp [DataDescriptors.all, ht])
      (ne_of_head_ne _ _ (by simp [String.data_append, unknownTypeLine]))⟩
  split
  · rename_i ht
    obtain ⟨p, hp, hpw⟩ := w3 ht
    obtain ⟨rest, hrest⟩ := printSkeleton_eq p hpw
    rw [hp]
    exact ⟨_, hrest, body_iff_of_known tags d.type _ rest (by simp [DataDescriptors.all, ht])
      (ne_of_head_ne _ _ (by simp [String.data_append, unknownTypeLine]))⟩
  split
  · rename_i ht
    obtain ⟨p, hp, hpw⟩ := w4 ht
    obtain ⟨rest, hrest⟩ := printAsset_eq p hpw
    rw [hp]
    exact ⟨_, hrest, body_iff_of_known tags d.type _ rest (by simp [DataDescriptors.all, ht])
      (ne_of_head_ne _ _ (by simp [String.data_append, unknownTypeLine]))⟩
  split
  · rename_i ht
    obtain ⟨p, hp, hpw⟩ := w5 ht
    obtain ⟨rest, hrest⟩ := printForcePlate_eq p hpw
    rw [hp]
    exact ⟨_, hrest, body_iff_of_known tags d.type _ rest (by simp [DataDescriptors.all, ht])
      (ne_of_head_ne _ _ (by simp [String.data_append, unknownTypeLine]))⟩
  split
  · rename_i ht
    obtain ⟨p, hp, hpw⟩ := w6 ht
    obtain ⟨rest, hrest⟩ := printDevice_eq p hpw
    rw [hp]
    exact ⟨_, hrest, body_iff_of_known tags d.type _ rest (by simp [DataDescriptors.all, ht])
      (ne_of_head_ne _ _ (by simp [String.data_append, unknownTypeLine]))⟩
  split
  · rename_i ht
    obtain ⟨p, hp⟩ := w7 ht
    rw [hp]
    exact ⟨_, rfl, body_iff_of_known tags d.type _ _ (by simp [DataDescriptors.all, ht])
      (ne_of_head_ne _ _ (by simp [String.data_append, unknownTypeLine]))⟩
  · rename_i h1 h2 h3 h4 h5 h6 h7
    refine ⟨_, rfl, ?_⟩
    simp [DataDescriptors.all, h1, h2, h3, h4, h5, h6, h7]

/-- Every description tagged with one of the seven enumerators is printed by the branch of that
enumerator, and a description with any other tag by the unknown-type branch. -/
theorem printDescriptionBody_dispatch (tags : DataDescriptors) (hdist : tags.Distinct)
    (d : sDataDescription) :
    (d.type = tags.Descriptor_MarkerSet →
      printDescriptionBody tags d = d.Data.asMarkerSet.bind printMarkerSet) ∧
    (d.type = tags.Descriptor_RigidBody →
      printDescriptionBody tags d = d.Data.asRigidBody.bind printRigidBody) ∧
    (d.type = tags.Descriptor_Skeleton →
      printDescriptionBody tags d = d.Data.asSkeleton.bind printSkeleton) ∧
    (d.type = tags.Descriptor_Asset →
      printDescriptionBody tags d = d.Data.asAsset.bind printAsset) ∧
    (d.type = tags.Descriptor_ForcePlate →
      printDescriptionBody tags d = d.Data.asForcePlate.bind printForcePlate) ∧
    (d.type = tags.Descriptor_Device →
      printDescriptionBody tags d = d.Data.asDevice.bind printDevice) ∧
    (d.type = tags.Descriptor_Camera →
      printDescriptionBody tags d = d.Data.asCamera.map printCamera) ∧
    (d.type ∉ tags.all → printDescriptionBody tags d = some [unknownTypeLine]) := by
  simp only [DataDescriptors.Distinct, DataDescriptors.all, List.nodup_cons, List.mem_cons,
    List.mem_singleton, not_or, List.not_mem_nil, not_false_eq_true, List.nodup_nil,
    and_true] at hdist
  obtain ⟨⟨a1, a2, a3, a4, a5, a6⟩, ⟨b2, b3, b4, b5, b6⟩, ⟨c3, c4, c5, c6⟩, ⟨e4, e5, e6⟩,
    ⟨f5, f6⟩, g6⟩ := hdist
  refine ⟨?_, ?_, ?_, ?_, ?_, ?_, ?_, ?_⟩
  all_goals
    intro ht
    unfold printDescriptionBody
  · simp [ht]
  · simp [ht, Ne.symm a1]
  · simp [ht, Ne.symm a2, Ne.symm b2]
  · simp [ht, Ne.symm a3, Ne.symm b3, Ne.symm c3]
  · simp [ht, Ne.symm a4, Ne.symm b4, Ne.symm c4, Ne.symm e4]
  · simp [ht, Ne.symm a5, Ne.symm b5, Ne.symm c5, Ne.symm e5, Ne.symm f5]
  · simp [ht, Ne.symm a6, Ne.symm b6, Ne.symm c6, Ne.symm e6, Ne.symm f6, Ne.symm g6]
  · simp only [DataDescriptors.all, List.mem_cons, List.mem_singleton, not_or,
      List.not_mem_nil, or_false] at ht
    simp [ht]

/-- One iteration of the loop of `PrintDataDescriptions` on a well-formed catalog. -/
theorem printDescription_wf (tags : DataDescriptors) (defs : sDataDescriptions)
    (hwf : defs.WellFormed tags) (i : Nat) (hi : i < defs.nDataDescriptions.toNat) :
    ∃ d body, defs.arrDataDescriptions[i]? = some d ∧
      printDescriptionBody tags d = some body ∧
      printDescription tags defs.arrDataDescriptions i =
        some (descriptionSeparator :: descriptionHeader i d.type :: body) ∧
      (body = [unknownTypeLine] ↔ d.type ∉ tags.all) := by
  have hlt : i < defs.arrDataDescriptions.length := Nat.lt_of_lt_of_le hi hwf.1
  have hd := List.getElem?_eq_getElem hlt
  obtain ⟨body, hbody, hiff⟩ := printDescriptionBody_wf tags _ (hwf.2 i _ hi hd)
  refine ⟨_, body, hd, hbody, ?_, hiff⟩
  unfold printDescription
  simp [hd, hbody]

/-- The output of the marker-set branch. -/
theorem printMarkerSet_output (p : sMarkerSetDescription) (h : p.WellFormed) :
    printMarkerSet p =
      some (("标记集名称 : " ++ p.szName ++ "\n") ::
        (p.szMarkerNames.take p.nMarkers.toNat).map (fun name => name ++ "\n")) := by
  unfold printMarkerSet
  simp only [Option.bind_eq_bind, Option.pure_def]
  rw [forInt_bind, loopOutput_lines _ _ _ h]
  · rfl
  · exact forUpTo_cells_isSome _ _ _ h (by simp)

/-- The four lines of a rigid body description at the top level. -/
theorem rigidBodyLines_top (p : sRigidBodyDescription) :
    rigidBodyLines "" p =
      ["刚体名称 : " ++ p.szName ++ "\n",
       "刚体 ID : " ++ toString p.ID ++ "\n",
       "刚体父级 ID : " ++ toString p.parentID ++ "\n",
       "父级偏移 : " ++ fmt_f 3 2 p.offsetx ++ "," ++ fmt_f 3 2 p.offsety ++ "," ++
         fmt_f 3 2 p.offsetz ++ "\n"] := rfl

/-- The four lines of a rigid body description inside a skeleton or an asset. -/
theorem rigidBodyLines_bone (p : sRigidBodyDescription) :
    rigidBodyLines "  " p =
      ["  刚体名称 : " ++ p.szName ++ "\n",
       "  刚体 ID : " ++ toString p.ID ++ "\n",
       "  刚体父级 ID : " ++ toString p.parentID ++ "\n",
       "  父级偏移 : " ++ fmt_f 3 2 p.offsetx ++ "," ++ fmt_f 3 2 p.offsety ++ "," ++
         fmt_f 3 2 p.offsetz ++ "\n"] := rfl

/-- The output of the rigid-body branch. -/
theorem printRigidBody_output (p : sRigidBodyDescription) (h : p.WellFormed) :
    printRigidBody p =
      some (["刚体名称 : " ++ p.szName ++ "\n",
             "刚体 ID : " ++ toString p.ID ++ "\n",
             "刚体父级 ID : " ++ toString p.parentID ++ "\n",
             "父级偏移 : " ++ fmt_f 3 2 p.offsetx ++ "," ++ fmt_f 3 2 p.offsety ++ "," ++
               fmt_f 3 2 p.offsetz ++ "\n"] ++
        match p.MarkerPositions, p.MarkerRequiredLabels with
        | some positions, some labels =>
          ((((positions.zip labels).take p.nMarkers.toNat).enum).map (fun m =>
            ["\t标记 #" ++ toString m.1 ++ ":\n",
             "\t\t位置: " ++ fmt_f 0 2 (m.2.1 0) ++ ", " ++ fmt_f 0 2 (m.2.1 1) ++ ", " ++
               fmt_f 0 2 (m.2.1 2) ++ "\n"] ++
            (if m.2.2 ≠ 0 then ["\t\t需要的活动标签: " ++ toString m.2.2 ++ "\n"] else []))).flatten
        | _, _ => []) := by
  unfold printRigidBody
  simp only [Option.bind_eq_bind, Option.pure_def]
  split
  · rename_i positions labels hp hl
    have hw := h positions labels hp hl
    rw [forInt_cells_bind p.nMarkers (positions.zip labels) _
      (fun i m =>
        ["\t标记 #" ++ toString i ++ ":\n",
         "\t\t位置: " ++ fmt_f 0 2 (m.1 0) ++ ", " ++ fmt_f 0 2 (m.1 1) ++ ", " ++
           fmt_f 0 2 (m.1 2) ++ "\n"] ++
        (if m.2 ≠ 0 then ["\t\t需要的活动标签: " ++ toString m.2 ++ "\n"] else []))]
    · rfl
    · simp only [List.length_zip]
      omega
    · intro i x hi hx
      obtain ⟨h1, h2⟩ := List.getElem?_zip_eq_some.mp hx
      unfold rigidBodyMarkerLines
      simp only [h1, h2, Option.bind_eq_bind, Option.pure_def, Option.some_bind]
      by_cases hz : x.2 = 0
      · simp [hz, fmt_d]
        rfl
      · simp [hz, fmt_d]
        rfl
  · rename_i hno
    cases hp : p.MarkerPositions <;> cases hl : p.MarkerRequiredLabels <;>
      simp_all [rigidBodyLines_top]

/-- The output of the skeleton branch. -/
theorem printSkeleton_output (p : sSkeletonDescription) (h : p.WellFormed) :
    printSkeleton p =
      some (["骨骼名称 : " ++ p.szName ++ "\n",
             "骨骼 ID : " ++ toString p.skeletonID ++ "\n",
             "刚体（骨骼）数量 : " ++ toString p.nRigidBodies ++ "\n"] ++
        ((p.RigidBodies.take p.nRigidBodies.toNat).map (fun rb =>
          ["  刚体名称 : " ++ rb.szName ++ "\n",
           "  刚体 ID : " ++ toString rb.ID ++ "\n",
           "  刚体父级 ID : " ++ toString rb.parentID ++ "\n",
           "  父级偏移 : " ++ fmt_f 3 2 rb.offsetx ++ "," ++ fmt_f 3 2 rb.offsety ++ "," ++
             fmt_f 3 2 rb.offsetz ++ "\n"])).flatten) := by
  unfold printSkeleton
  simp only [Option.bind_eq_bind, Option.pure_def]
  rw [forInt_each_bind p.nRigidBodies p.RigidBodies _ (fun rb => rigidBodyLines "  " rb) _ h]
  · rfl
  · intro i x hi hx
    simp [hx]

/-- The output of the asset branch. -/
theorem printAsset_output (p : sAssetDescription) (h : p.WellFormed) :
    printAsset p =
      some (["训练标记集名称 : " ++ p.szName ++ "\n",
             "资产 ID : " ++ toString p.AssetID ++ "\n",
             "训练标记集刚体（骨骼）数量 : " ++ toString p.nRigidBodies ++ "\n"] ++
        ((p.RigidBodies.take p.nRigidBodies.toNat).map (fun rb =>
          ["  刚体名称 : " ++ rb.szName ++ "\n",
           "  刚体 ID : " ++ toString rb.ID ++ "\n",
           "  刚体父级 ID : " ++ toString rb.parentID ++ "\n",
           "  父级偏移 : " ++ fmt_f 3 2 rb.offsetx ++ "," ++ fmt_f 3 2 rb.offsety ++ "," ++
             fmt_f 3 2 rb.offsetz ++ "\n"])).flatten ++
        ["训练标记集标记数量 : " ++ toString p.nMarkers ++ "\n"] ++
        ((p.Markers.take p.nMarkers.toNat).map (fun marker =>
          ["  标记名称 : " ++ marker.szName ++ "\n",
           "  标记 ID   : " ++ toString (NatNet_DecodeID marker.ID).2 ++ "\n"])).flatten) := by
  unfold printAsset
  simp only [Option.bind_eq_bind, Option.pure_def]
  rw [forInt_each_bind p.nRigidBodies p.RigidBodies _ (fun rb => rigidBodyLines "  " rb) _ h.1,
    forInt_each_bind p.nMarkers p.Markers _ (fun marker =>
      ["  标记名称 : " ++ marker.szName ++ "\n",
       "  标记 ID   : " ++ toString (NatNet_DecodeID marker.ID).2 ++ "\n"]) _ h.2]
  · rfl
  · intro i x hi hx
    simp [hx, fmt_d]
  · intro i x hi hx
    simp [hx]

/-- The output of the channel-name loops. -/
theorem channelNameLines_output (n : Int) (names : List String)
    (h : n.toNat ≤ names.length) :
    channelNameLines n names =
      some (((names.take n.toNat).enum).map (fun c =>
        "\t通道 " ++ toString c.1 ++ " : " ++ c.2 ++ "\n")) := by
  have hb := forInt_cells_bind n names
    (fun iChannel => (names[iChannel]?).bind (fun name =>
      some ["\t通道 " ++ fmt_d iChannel ++ " : " ++ name ++ "\n"]))
    (fun i name => ["\t通道 " ++ toString i ++ " : " ++ name ++ "\n"]) some h
    (by
      intro i x hi hx
      simp [hx, fmt_d]
      rfl)
  unfold channelNameLines
  simp only [Option.bind_eq_bind, Option.pure_def]
  have e : ∀ o : Option (List String), o.bind some = o := by
    intro o
    cases o <;> rfl
  rw [e] at hb
  rw [hb]
  congr 1
  generalize (List.take n.toNat names).enum = l
  induction l with
  | nil => rfl
  | cons a l ih => simp [ih]

/-- The output of the force-plate branch. -/
theorem printForcePlate_output (p : sForcePlateDescription) (h : p.WellFormed) :
    printForcePlate p =
      some (["力板 ID : " ++ toString p.ID ++ "\n",
             "力板序列号 : " ++ p.strSerialNo ++ "\n",
             "力板宽度 : " ++ fmt_f 3 2 p.fWidth ++ "\n",
             "力板长度 : " ++ fmt_f 3 2 p.fLength ++ "\n",
             "力板电气中心偏移 (" ++ fmt_f 3 3 p.fOriginX ++ ", " ++ fmt_f 3 3 p.fOriginY ++
               ", " ++ fmt_f 3 3 p.fOriginZ ++ ")\n",
             "力板角 0 : (" ++ fmt_f 3 4 (p.fCorners 0 0) ++ ", " ++
               fmt_f 3 4 (p.fCorners 0 1) ++ ", " ++ fmt_f 3 4 (p.fCorners 0 2) ++ ")\n",
             "力板角 1 : (" ++ fmt_f 3 4 (p.fCorners 1 0) ++ ", " ++
               fmt_f 3 4 (p.fCorners 1 1) ++ ", " ++ fmt_f 3 4 (p.fCorners 1 2) ++ ")\n",
             "力板角 2 : (" ++ fmt_f 3 4 (p.fCorners 2 0) ++ ", " ++
               fmt_f 3 4 (p.fCorners 2 1) ++ ", " ++ fmt_f 3 4 (p.fCorners 2 2) ++ ")\n",
             "力板角 3 : (" ++ fmt_f 3 4 (p.fCorners 3 0) ++ ", " ++
               fmt_f 3 4 (p.fCorners 3 1) ++ ", " ++ fmt_f 3 4 (p.fCorners 3 2) ++ ")\n",
             "力板类型 : " ++ toString p.iPlateType ++ "\n",
             "力板数据类型 : " ++ toString p.iChannelDataType ++ "\n",
             "力板通道数量 : " ++ toString p.nChannels ++ "\n"] ++
        ((p.szChannelNames.take p.nChannels.toNat).enum).map (fun c =>
          "\t通道 " ++ toString c.1 ++ " : " ++ c.2 ++ "\n")) := by
  unfold printForcePlate
  simp only [Option.bind_eq_bind, Option.pure_def, channelNameLines_output _ _ h, forUpTo,
    Option.some_bind]
  rfl

/-- The output of the device branch. -/
theorem printDevice_output (p : sDeviceDescription) (h : p.WellFormed) :
    printDevice p =
      some (["设备名称 : " ++ p.strName ++ "\n",
             "设备序列号 : " ++ p.strSerialNo ++ "\n",
             "设备 ID : " ++ toString p.ID ++ "\n",
             "设备通道数量 : " ++ toString p.nChannels ++ "\n"] ++
        ((p.szChannelNames.take p.nChannels.toNat).enum).map (fun c =>
          "\t通道 " ++ toString c.1 ++ " : " ++ c.2 ++ "\n")) := by
  unfold printDevice
  simp only [Option.bind_eq_bind, Option.pure_def, channelNameLines_output _ _ h,
    Option.some_bind]
  rfl

/-- The output of the camera branch. -/
theorem printCamera_output (p : sCameraDescription) :
    printCamera p =
      ["相机名称 : " ++ p.strName ++ "\n",
       "相机位置 (" ++ fmt_f 3 2 p.x ++ ", " ++ fmt_f 3 2 p.y ++ ", " ++ fmt_f 3 2 p.z ++ ")\n",
       "相机方向 (" ++ fmt_f 3 2 p.qx ++ ", " ++ fmt_f 3 2 p.qy ++ ", " ++ fmt_f 3 2 p.qz ++
         ", " ++ fmt_f 3 2 p.qw ++ ")\n"] := rfl

/-- The output of `PrintDataDescriptions` on a well-formed catalog: the first line and one block
per description, in index order. -/
theorem PrintDataDescriptions_blocks (tags : DataDescriptors)
    (hdist : tags.Distinct) (defs : sDataDescriptions) (hwf : defs.WellFormed tags) :
    (∃ blocks : List (List String),
      PrintDataDescriptions tags defs =
        some (retrievedLine defs.nDataDescriptions :: blocks.flatten) ∧
      blocks.length = defs.nDataDescriptions.toNat ∧
      ∀ i, i < defs.nDataDescriptions.toNat →
        ∃ d body, defs.arrDataDescriptions[i]? = some d ∧
          printDescriptionBody tags d = some body ∧
          blocks[i]? = some (descriptionSeparator :: descriptionHeader i d.type :: body) ∧
          (body = [unknownTypeLine] ↔ d.type ∉ tags.all)) ∧
    ∀ d : sDataDescription,
      (d.type = tags.Descriptor_MarkerSet →
        printDescriptionBody tags d = d.Data.asMarkerSet.bind printMarkerSet) ∧
      (d.type = tags.Descriptor_RigidBody →
        printDescriptionBody tags d = d.Data.asRigidBody.bind printRigidBody) ∧
      (d.type = tags.Descriptor_Skeleton →
        printDescriptionBody tags d = d.Data.asSkeleton.bind printSkeleton) ∧
      (d.type = tags.Descriptor_Asset →
        printDescriptionBody tags d = d.Data.asAsset.bind printAsset) ∧
      (d.type = tags.Descriptor_ForcePlate →
        printDescriptionBody tags d = d.Data.asForcePlate.bind printForcePlate) ∧
      (d.type = tags.Descriptor_Device →
        printDescriptionBody tags d = d.Data.asDevice.bind printDevice) ∧
      (d.type = tags.Descriptor_Camera →
        printDescriptionBody tags d = d.Data.asCamera.map printCamera) ∧
      (d.type ∉ tags.all → printDescriptionBody tags d = some [unknownTypeLine]) := by
  refine ⟨⟨(List.range defs.nDataDescriptions.toNat).map
      (fun i => (printDescription tags defs.arrDataDescriptions i).getD []), ?_, by simp, ?_⟩,
    printDescriptionBody_dispatch tags hdist⟩
  · unfold PrintDataDescriptions
    simp only [Option.bind_eq_bind, Option.pure_def]
    rw [forInt_bind]
    · rfl
    · intro i hi
      obtain ⟨d, body, -, -, h, -⟩ := printDescription_wf tags defs hwf i hi
      simp [h]
  · intro i hi
    obtain ⟨d, body, hd, hbody, h, hiff⟩ := printDescription_wf tags defs hwf i hi
    refine ⟨d, body, hd, hbody, ?_, hiff⟩
    simp [List.getElem?_range hi, h]

/-- C7: on every well-formed catalog, with any integer type tags, `PrintDataDescriptions`
completes: it writes the line with the count and then one block per description, in index
order, made of the separator, the header with the index and the tag, and the body. The body is
the single line of the unknown-type branch exactly when the tag is none of the seven
enumerators. Each of the seven tags has its own branch, whose whole output is given here: the
marker set its name and marker names; the rigid body its four lines and its markers; the
skeleton its three lines and the four lines of each bone; the asset its lines, bones and markers;
the force plate its lines, four corners and channel names; the device its lines and channel
names; the camera its three lines. -/
theorem PrintDataDescriptions_renders_every_description (tags : DataDescriptors)
    (hdist : tags.Distinct) (defs : sDataDescriptions) (hwf : defs.WellFormed tags) :
    (∃ blocks : List (List String),
      PrintDataDescriptions tags defs =
        some (("检索到 " ++ toString defs.nDataDescriptions ++ " 个数据描述:\n") ::
          blocks.flatten) ∧
      blocks.length = defs.nDataDescriptions.toNat ∧
      ∀ i, i < defs.nDataDescriptions.toNat →
        ∃ d body, defs.arrDataDescriptions[i]? = some d ∧
          printDescriptionBody tags d = some body ∧
          blocks[i]? = some ("---------------------------------\n" ::
            ("数据描述 # " ++ toString i ++ " (类型=" ++ toString d.type ++ ")\n") :: body) ∧
          (body = ["未知数据类型。\n"] ↔ d.type ∉ tags.all)) ∧
    (∀ p : sMarkerSetDescription, p.WellFormed →
      printDescriptionBody tags
          { type := tags.Descriptor_MarkerSet,
            Data := DescriptionData.MarkerSetDescription p } =
        some (("标记集名称 : " ++ p.szName ++ "\n") ::
          (p.szMarkerNames.take p.nMarkers.toNat).map (fun name => name ++ "\n"))) ∧
    (∀ p : sRigidBodyDescription, p.WellFormed →
      printDescriptionBody tags
          { type := tags.Descriptor_RigidBody,
            Data := DescriptionData.RigidBodyDescription p } =
        some (["刚体名称 : " ++ p.szName ++ "\n",
               "刚体 ID : " ++ toString p.ID ++ "\n",
               "刚体父级 ID : " ++ toString p.parentID ++ "\n",
               "父级偏移 : " ++ fmt_f 3 2 p.offsetx ++ "," ++ fmt_f 3 2 p.offsety ++ "," ++
                 fmt_f 3 2 p.offsetz ++ "\n"] ++
          match p.MarkerPositions, p.MarkerRequiredLabels with
          | some positions, some labels =>
            ((((positions.zip labels).take p.nMarkers.toNat).enum).map (fun m =>
              ["\t标记 #" ++ toString m.1 ++ ":\n",
               "\t\t位置: " ++ fmt_f 0 2 (m.2.1 0) ++ ", " ++ fmt_f 0 2 (m.2.1 1) ++ ", " ++
                 fmt_f 0 2 (m.2.1 2) ++ "\n"] ++
              (if m.2.2 ≠ 0 then ["\t\t需要的活动标签: " ++ toString m.2.2 ++ "\n"]
               else []))).flatten
          | _, _ => [])) ∧
    (∀ p : sSkeletonDescription, p.WellFormed →
      printDescriptionBody tags
          { type := tags.Descriptor_Skeleton,
            Data := DescriptionData.SkeletonDescription p } =
        some (["骨骼名称 : " ++ p.szName ++ "\n",
               "骨骼 ID : " ++ toString p.skeletonID ++ "\n",
               "刚体（骨骼）数量 : " ++ toString p.nRigidBodies ++ "\n"] ++
          ((p.RigidBodies.take p.nRigidBodies.toNat).map (fun rb =>
            ["  刚体名称 : " ++ rb.szName ++ "\n",
             "  刚体 ID : " ++ toString rb.ID ++ "\n",
             "  刚体父级 ID : " ++ toString rb.parentID ++ "\n",
             "  父级偏移 : " ++ fmt_f 3 2 rb.offsetx ++ "," ++ fmt_f 3 2 rb.offsety ++ "," ++
               fmt_f 3 2 rb.offsetz ++ "\n"])).flatten)) ∧
    (∀ p : sAssetDescription, p.WellFormed →
      printDescriptionBody tags
          { type := tags.Descriptor_Asset, Data := DescriptionData.AssetDescription p } =
        some (["训练标记集名称 : " ++ p.szName ++ "\n",
               "资产 ID : " ++ toString p.AssetID ++ "\n",
               "训练标记集刚体（骨骼）数量 : " ++ toString p.nRigidBodies ++ "\n"] ++
          ((p.RigidBodies.take p.nRigidBodies.toNat).map (fun rb =>
            ["  刚体名称 : " ++ rb.szName ++ "\n",
             "  刚体 ID : " ++ toString rb.ID ++ "\n",
             "  刚体父级 ID : " ++ toString rb.parentID ++ "\n",
             "  父级偏移 : " ++ fmt_f 3 2 rb.offsetx ++ "," ++ fmt_f 3 2 rb.offsety ++ "," ++
               fmt_f 3 2 rb.offsetz ++ "\n"])).flatten ++
          ["训练标记集标记数量 : " ++ toString p.nMarkers ++ "\n"] ++
          ((p.Markers.take p.nMarkers.toNat).map (fun marker =>
            ["  标记名称 : " ++ marker.szName ++ "\n",
             "  标记 ID   : " ++ toString (NatNet_DecodeID marker.ID).2 ++ "\n"])).flatten)) ∧
    (∀ p : sForcePlateDescription, p.WellFormed →
      printDescriptionBody tags
          { type := tags.Descriptor_ForcePlate,
            Data := DescriptionData.ForcePlateDescription p } =
        some (["力板 ID : " ++ toString p.ID ++ "\n",
               "力板序列号 : " ++ p.strSerialNo ++ "\n",
               "力板宽度 : " ++ fmt_f 3 2 p.fWidth ++ "\n",
               "力板长度 : " ++ fmt_f 3 2 p.fLength ++ "\n",
               "力板电气中心偏移 (" ++ fmt_f 3 3 p.fOriginX ++ ", " ++ fmt_f 3 3 p.fOriginY ++
                 ", " ++ fmt_f 3 3 p.fOriginZ ++ ")\n",
               "力板角 0 : (" ++ fmt_f 3 4 (p.fCorners 0 0) ++ ", " ++
                 fmt_f 3 4 (p.fCorners 0 1) ++ ", " ++ fmt_f 3 4 (p.fCorners 0 2) ++ ")\n",
               "力板角 1 : (" ++ fmt_f 3 4 (p.fCorners 1 0) ++ ", " ++
                 fmt_f 3 4 (p.fCorners 1 1) ++ ", " ++ fmt_f 3 4 (p.fCorners 1 2) ++ ")\n",
               "力板角 2 : (" ++ fmt_f 3 4 (p.fCorners 2 0) ++ ", " ++
                 fmt_f 3 4 (p.fCorners 2 1) ++ ", " ++ fmt_f 3 4 (p.fCorners 2 2) ++ ")\n",
               "力板角 3 : (" ++ fmt_f 3 4 (p.fCorners 3 0) ++ ", " ++
                 fmt_f 3 4 (p.fCorners 3 1) ++ ", " ++ fmt_f 3 4 (p.fCorners 3 2) ++ ")\n",
               "力板类型 : " ++ toString p.iPlateType ++ "\n",
               "力板数据类型 : " ++ toString p.iChannelDataType ++ "\n",
               "力板通道数量 : " ++ toString p.nChannels ++ "\n"] ++
          ((p.szChannelNames.take p.nChannels.toNat).enum).map (fun c =>
            "\t通道 " ++ toString c.1 ++ " : " ++ c.2 ++ "\n"))) ∧
    (∀ p : sDeviceDescription, p.WellFormed →
      printDescriptionBody tags
          { type := tags.Descriptor_Device, Data := DescriptionData.DeviceDescription p } =
        some (["设备名称 : " ++ p.strName ++ "\n",
               "设备序列号 : " ++ p.strSerialNo ++ "\n",
               "设备 ID : " ++ toString p.ID ++ "\n",
               "设备通道数量 : " ++ toString p.nChannels ++ "\n"] ++
          ((p.szChannelNames.take p.nChannels.toNat).enum).map (fun c =>
            "\t通道 " ++ toString c.1 ++ " : " ++ c.2 ++ "\n"))) ∧
    (∀ p : sCameraDescription,
      printDescriptionBody tags
          { type := tags.Descriptor_Camera, Data := DescriptionData.CameraDescription p } =
        some ["相机名称 : " ++ p.strName ++ "\n",
              "相机位置 (" ++ fmt_f 3 2 p.x ++ ", " ++ fmt_f 3 2 p.y ++ ", " ++
                fmt_f 3 2 p.z ++ ")\n",
              "相机方向 (" ++ fmt_f 3 2 p.qx ++ ", " ++ fmt_f 3 2 p.qy ++ ", " ++
                fmt_f 3 2 p.qz ++ ", " ++ fmt_f 3 2 p.qw ++ ")\n"]) ∧
    (∀ (type : Int) (data : DescriptionData), type ∉ tags.all →
      printDescriptionBody tags { type := type, Data := data } = some ["未知数据类型。\n"]) := by
  refine ⟨(PrintDataDescriptions_blocks tags hdist defs hwf).1, ?_, ?_, ?_, ?_, ?_, ?_, ?_, ?_⟩
  · intro p hp
    rw [(printDescriptionBody_dispatch tags hdist _).1 rfl]
    exact printMarkerSet_output p hp
  · intro p hp
    rw [(printDescriptionBody_dispatch tags hdist _).2.1 rfl]
    exact printRigidBody_output p hp
  · intro p hp
    rw [(printDescriptionBody_dispatch tags hdist _).2.2.1 rfl]
    exact printSkeleton_output p hp
  · intro p hp
    rw [(printDescriptionBody_dispatch tags hdist _).2.2.2.1 rfl]
    exact printAsset_output p hp
  · intro p hp
    rw [(printDescriptionBody_dispatch tags hdist _).2.2.2.2.1 rfl]
    exact printForcePlate_output p hp
  · intro p hp
    rw [(printDescriptionBody_dispatch tags hdist _).2.2.2.2.2.1 rfl]
    exact printDevice_output p hp
  · intro p
    rw [(printDescriptionBody_dispatch tags hdist _).2.2.2.2.2.2.1 rfl]
    rfl
  · intro type data h
    exact (printDescriptionBody_dispatch tags hdist _).2.2.2.2.2.2.2 h

/-- C7 at the catalog `fullCatalog`, which has one description of each of the seven kinds and
one of the unknown type 99. -/
theorem PrintDataDescriptions_renders_every_description_witness :
    natNetDescriptors.Distinct ∧ fullCatalog.WellFormed natNetDescriptors ∧
    PrintDataDescriptions natNetDescriptors fullCatalog =
      some ["检索到 8 个数据描述:\n",
            "---------------------------------\n", "数据描述 # 0 (类型=0)\n",
            "标记集名称 : all\n", "m1\n", "m2\n",
            "---------------------------------\n", "数据描述 # 1 (类型=1)\n",
            "刚体名称 : Body1\n", "刚体 ID : 1\n", "刚体父级 ID : -1\n",
            "父级偏移 : 0.00,0.00,0.00\n",
            "\t标记 #0:\n", "\t\t位置: 0.00, 0.00, 0.00\n",
            "\t标记 #1:\n", "\t\t位置: 1.00, 1.00, 1.00\n", "\t\t需要的活动标签: 5\n",
            "---------------------------------\n", "数据描述 # 2 (类型=2)\n",
            "骨骼名称 : sk\n", "骨骼 ID : 3\n", "刚体（骨骼）数量 : 1\n",
            "  刚体名称 : Body1\n", "  刚体 ID : 1\n", "  刚体父级 ID : -1\n",
            "  父级偏移 : 0.00,0.00,0.00\n",
            "---------------------------------\n", "数据描述 # 3 (类型=3)\n",
            "力板 ID : 7\n", "力板序列号 : FP1\n", "力板宽度 : 0.50\n", "力板长度 : 1.00\n",
            "力板电气中心偏移 (0.000, 0.000, 0.000)\n",
            "力板角 0 : (0.0000, 0.0000, 0.0000)\n", "力板角 1 : (0.0000, 0.0000, 0.0000)\n",
            "力板角 2 : (0.0000, 0.0000, 0.0000)\n", "力板角 3 : (0.0000, 0.0000, 0.0000)\n",
            "力板类型 : 1\n", "力板数据类型 : 0\n", "力板通道数量 : 2\n",
            "\t通道 0 : Fx\n", "\t通道 1 : Fy\n",
            "---------------------------------\n", "数据描述 # 4 (类型=4)\n",
            "设备名称 : daq\n", "设备序列号 : D1\n", "设备 ID : 8\n", "设备通道数量 : 1\n",
            "\t通道 0 : ch\n",
            "---------------------------------\n", "数据描述 # 5 (类型=5)\n",
            "相机名称 : cam\n", "相机位置 (0.00, 0.00, 0.00)\n",
            "相机方向 (0.00, 0.00, 0.00, 1.00)\n",
            "---------------------------------\n", "数据描述 # 6 (类型=6)\n",
            "训练标记集名称 : as\n", "资产 ID : 4\n", "训练标记集刚体（骨骼）数量 : 1\n",
            "  刚体名称 : Body1\n", "  刚体 ID : 1\n", "  刚体父级 ID : -1\n",
            "  父级偏移 : 0.00,0.00,0.00\n",
            "训练标记集标记数量 : 1\n", "  标记名称 : mk\n", "  标记 ID   : 3\n",
            "---------------------------------\n", "数据描述 # 7 (类型=99)\n",
            "未知数据类型。\n"] ∧
    ∃ blocks : List (List String),
      PrintDataDescriptions natNetDescriptors fullCatalog =
        some (("检索到 " ++ toString fullCatalog.nDataDescriptions ++ " 个数据描述:\n") ::
          blocks.flatten) ∧
      blocks.length = fullCatalog.nDataDescriptions.toNat :=
  have hdist : natNetDescriptors.Distinct := by
    simp [DataDescriptors.Distinct, DataDescriptors.all, natNetDescriptors]
  have hwf : fullCatalog.WellFormed natNetDescriptors := by
    refine ⟨by decide, ?_⟩
    intro i d hi hd
    have h8 : i < 8 := hi
    interval_cases i <;>
      simp [fullCatalog] at hd <;> subst hd <;>
      simp [sDataDescription.WellFormed, natNetDescriptors, sMarkerSetDescription.WellFormed,
        sRigidBodyDescription.WellFormed, sSkeletonDescription.WellFormed,
        sAssetDescription.WellFormed, sForcePlateDescription.WellFormed,
        sDeviceDescription.WellFormed]
  have h := (PrintDataDescriptions_renders_every_description natNetDescriptors hdist
    fullCatalog hwf).1
  ⟨hdist, hwf, by decide, h.imp (fun _ hb => ⟨hb.1, hb.2.1⟩)⟩

/-- A decimal digit is written as a digit character. -/
theorem digitChar_isDigit (k : Nat) (h : k < 10) : (Nat.digitChar k).isDigit = true := by
  interval_cases k <;> rfl

/-- The `%3.2f` conversion of a finite value: sign, whole part, point and two digits, never
padded. -/
theorem fmt_f_finite (neg : Bool) (m : Nat) (e : Int) :
    fmt_f 3 2 (CFloat.finite neg m e) =
      signText neg ++ toString (scaledMagnitude 2 m e / 100) ++ "." ++
        String.mk [Nat.digitChar (scaledMagnitude 2 m e % 100 / 10 % 10),
                   Nat.digitChar (scaledMagnitude 2 m e % 100 % 10)] := by
  have hfix : fmtFixed 2 (CFloat.finite neg m e) =
      signText neg ++ toString (scaledMagnitude 2 m e / 100) ++ "." ++
        String.mk [Nat.digitChar (scaledMagnitude 2 m e % 100 / 10 % 10),
                   Nat.digitChar (scaledMagnitude 2 m e % 100 % 10)] := by
    simp [fmtFixed, fracDigits, String.append_assoc]
  unfold fmt_f padLeft
  rw [hfix]
  have hlen : 3 - (signText neg ++ toString (scaledMagnitude 2 m e / 100) ++ "." ++
        String.mk [Nat.digitChar (scaledMagnitude 2 m e % 100 / 10 % 10),
                   Nat.digitChar (scaledMagnitude 2 m e % 100 % 10)]).length = 0 := by
    simp only [String.length_append]
    have h1 : (".").length = 1 := rfl
    have h2 : (String.mk [Nat.digitChar (scaledMagnitude 2 m e % 100 / 10 % 10),
                   Nat.digitChar (scaledMagnitude 2 m e % 100 % 10)]).length = 2 := rfl
    omega
  rw [hlen]
  rfl

/-- The `%3.2f` conversion of a finite value has exactly two decimals. -/
theorem fmt_f_twoDecimals (x : CFloat) (h : x.isFinite = true) : TwoDecimals (fmt_f 3 2 x) := by
  cases x with
  | finite neg m e =>
    exact ⟨neg, _, _, _, digitChar_isDigit _ (Nat.mod_lt _ (by norm_num)),
      digitChar_isDigit _ (Nat.mod_lt _ (by norm_num)), fmt_f_finite neg m e⟩
  | infinite neg => simp [CFloat.isFinite] at h
  | nan neg => simp [CFloat.isFinite] at h

/-- A text without a point is not a number with two decimals. -/
theorem not_twoDecimals_of_no_point (s : String) (h : '.' ∉ s.data) : ¬ TwoDecimals s := by
  rintro ⟨neg, whole, d1, d2, -, -, hs⟩
  apply h
  rw [hs]
  simp [String.data_append]

/-- The `%d` conversion of a negative value starts with a minus sign. -/
theorem toString_neg (p : Int) (h : p < 0) : toString p = "-" ++ toString p.natAbs := by
  cases p with
  | ofNat n => exact absurd h (by simp)
  | negSucc n => rfl

/-- The output of `PrintDataDescriptions` on a catalog of one rigid body description. -/
theorem PrintDataDescriptions_singleRigidBody (tags : DataDescriptors) (hdist : tags.Distinct)
    (pRB : sRigidBodyDescription) (hwf : pRB.WellFormed) :
    ∃ markers, PrintDataDescriptions tags (singleRigidBody tags pRB) =
      some ([retrievedLine 1, descriptionSeparator,
             descriptionHeader 0 tags.Descriptor_RigidBody,
             "刚体名称 : " ++ pRB.szName ++ "\n",
             "刚体 ID : " ++ toString pRB.ID ++ "\n",
             "刚体父级 ID : " ++ toString pRB.parentID ++ "\n",
             "父级偏移 : " ++ fmt_f 3 2 pRB.offsetx ++ "," ++ fmt_f 3 2 pRB.offsety ++ "," ++
               fmt_f 3 2 pRB.offsetz ++ "\n"] ++ markers) := by
  obtain ⟨markers, hm⟩ := printRigidBody_eq pRB hwf
  have hbody := (printDescriptionBody_dispatch tags hdist
    { type := tags.Descriptor_RigidBody, Data := DescriptionData.RigidBodyDescription pRB }).2.1 rfl
  refine ⟨markers, ?_⟩
  simp only [PrintDataDescriptions, singleRigidBody, forInt, Option.bind_eq_bind,
    Option.pure_def]
  have h1 : (1 : Int).toNat = 1 := rfl
  rw [h1]
  simp only [forUpTo, printDescription, Option.bind_eq_bind, Option.pure_def]
  simp [hbody, DescriptionData.asRigidBody, hm, rigidBodyLines, fmt_d]

/-- C9, as stated, fails: for the rigid body `bodyInf`, whose x offset is `+inf`, the offset line
is `inf,0.00,0.00`, and `inf` is not a number with two decimals. -/
theorem PrintDataDescriptions_infinite_offset :
    PrintDataDescriptions natNetDescriptors (singleRigidBody natNetDescriptors bodyInf) =
      some ["检索到 1 个数据描述:\n", "---------------------------------\n",
            "数据描述 # 0 (类型=1)\n", "刚体名称 : Body1\n", "刚体 ID : 1\n",
            "刚体父级 ID : -1\n", "父级偏移 : inf,0.00,0.00\n"] ∧
    fmt_f 3 2 bodyInf.offsetx = "inf" ∧ ¬ TwoDecimals (fmt_f 3 2 bodyInf.offsetx) := by
  refine ⟨by decide, by decide, ?_⟩
  have h : fmt_f 3 2 bodyInf.offsetx = "inf" := by decide
  rw [h]
  exact not_twoDecimals_of_no_point "inf" (by decide)

/-- C9, amended: for every catalog that consists of one well-formed rigid body description with
finite parent offsets, the output of `PrintDataDescriptions` has, in this order and after the
first line, the separator and the header, a line with the name, a line with the decimal of the
ID, a line with the decimal of the parent ID (with a leading minus sign when it is negative) and
a line with the three offsets, each written with exactly two decimals, joined by commas without
blanks; for `Body1` with ID 1, parent ID -1 and offset (0, 0, 0) the output has the texts
`Body1`, `1`, `-1` and `0.00,0.00,0.00`. -/
theorem PrintDataDescriptions_single_rigid_body (tags : DataDescriptors)
    (hdist : tags.Distinct) (pRB : sRigidBodyDescription) (hwf : pRB.WellFormed)
    (hx : pRB.offsetx.isFinite = true) (hy : pRB.offsety.isFinite = true)
    (hz : pRB.offsetz.isFinite = true) :
    (∃ fx fy fz markers,
      PrintDataDescriptions tags (singleRigidBody tags pRB) =
        some ([retrievedLine 1, descriptionSeparator,
               descriptionHeader 0 tags.Descriptor_RigidBody,
               "刚体名称 : " ++ pRB.szName ++ "\n",
               "刚体 ID : " ++ toString pRB.ID ++ "\n",
               "刚体父级 ID : " ++ toString pRB.parentID ++ "\n",
               "父级偏移 : " ++ fx ++ "," ++ fy ++ "," ++ fz ++ "\n"] ++ markers) ∧
      fx = fmt_f 3 2 pRB.offsetx ∧ fy = fmt_f 3 2 pRB.offsety ∧ fz = fmt_f 3 2 pRB.offsetz ∧
      TwoDecimals fx ∧ TwoDecimals fy ∧ TwoDecimals fz) ∧
    (pRB.parentID < 0 → toString pRB.parentID = "-" ++ toString pRB.parentID.natAbs) ∧
    PrintDataDescriptions natNetDescriptors (singleRigidBody natNetDescriptors body1) =
      some ["检索到 1 个数据描述:\n", "---------------------------------\n",
            "数据描述 # 0 (类型=1)\n", "刚体名称 : Body1\n", "刚体 ID : 1\n",
            "刚体父级 ID : -1\n", "父级偏移 : 0.00,0.00,0.00\n"] ∧
    0 < countInOutput "Body1" ["刚体名称 : Body1\n"] ∧
    0 < countInOutput "1" ["刚体 ID : 1\n"] ∧
    0 < countInOutput "-1" ["刚体父级 ID : -1\n"] ∧
    0 < countInOutput "0.00,0.00,0.00" ["父级偏移 : 0.00,0.00,0.00\n"] := by
  obtain ⟨markers, hm⟩ := PrintDataDescriptions_singleRigidBody tags hdist pRB hwf
  exact ⟨⟨_, _, _, markers, hm, rfl, rfl, rfl, fmt_f_twoDecimals _ hx, fmt_f_twoDecimals _ hy,
    fmt_f_twoDecimals _ hz⟩, toString_neg _, by decide, by decide, by decide, by decide,
    by decide⟩

/-- C9 amended, at the rigid body `body1`. -/
theorem PrintDataDescriptions_single_rigid_body_witness :
    natNetDescriptors.Distinct ∧ body1.WellFormed ∧
    body1.offsetx.isFinite = true ∧ body1.offsety.isFinite = true ∧
    body1.offsetz.isFinite = true ∧
    toString body1.parentID = "-" ++ toString body1.parentID.natAbs :=
  have hdist : natNetDescriptors.Distinct := by
    simp [DataDescriptors.Distinct, DataDescriptors.all, natNetDescriptors]
  have hwf : body1.WellFormed := by
    simp [sRigidBodyDescription.WellFormed, body1, bodyWith]
  ⟨hdist, hwf, rfl, rfl, rfl,
    (PrintDataDescriptions_single_rigid_body natNetDescriptors hdist body1 hwf rfl rfl rfl).2.1
      (by decide)⟩

/-! ## `NatNet_DecodeID` -/

/-- C6: `NatNet_DecodeID` is defined on every id, with both parts in the 16-bit range, and it
reverses the encoding: for `high` and `low` below 2^16, decoding the 32-bit integer that packs
`high` into the upper 16 bits and `low` into the lower 16 bits gives back `high` and `low`; and
encoding the two parts of any 32-bit id gives back the id. -/
theorem NatNet_DecodeID_encodeID (high low : Nat) (hh : high < 2 ^ 16) (hl : low < 2 ^ 16) :
    NatNet_DecodeID (encodeID high low) = ((high : Int), (low : Int)) ∧
    (∀ id : Int, 0 ≤ (NatNet_DecodeID id).1 ∧ (NatNet_DecodeID id).1 < 2 ^ 16 ∧
      0 ≤ (NatNet_DecodeID id).2 ∧ (NatNet_DecodeID id).2 < 2 ^ 16) ∧
    (∀ id : Int, -2 ^ 31 ≤ id → id < 2 ^ 31 →
      encodeID (NatNet_DecodeID id).1.toNat (NatNet_DecodeID id).2.toNat = id) :=
  ⟨decode_encode high low hh hl, decode_range, fun id h1 h2 => encode_decode id ⟨h1, h2⟩⟩

/-- C6 at the pair (65535, 3), whose encoding is the negative `int` -65533. -/
theorem NatNet_DecodeID_encodeID_witness :
    (65535 < 2 ^ 16 ∧ 3 < 2 ^ 16) ∧ encodeID 65535 3 = -65533 ∧
    NatNet_DecodeID (encodeID 65535 3) = (65535, 3) :=
  ⟨by decide, by decide, (NatNet_DecodeID_encodeID 65535 3 (by decide) (by decide)).1⟩

end MinimalClient
